import Mathlib

/-
Verification of the CMS telemetry decoder (cms_decode.py).

Bytes are modelled as natural numbers in a list.  Exceptions raised by the
Python code (AssertionError, struct.error, IndexError, ValueError from int()
and datetime, UnicodeDecodeError) are modelled by an explicit error type whose
constructors follow the error taxonomy of the specification, attributed to the
corresponding failing statement of the source.
-/

/-- Error taxonomy of the decoder, one constructor per kind of failing
statement in cms_decode.py. -/
inductive DecodeError where
  /-- struct.error while unpacking the 4 frame header bytes. -/
  | headerTruncated : DecodeError
  /-- assert length >= 2 in cms_read_block_from_bytes. -/
  | shortFrame : DecodeError
  /-- assert hdr == 0x05 in cms_read_block_from_bytes. -/
  | badMagic : DecodeError
  /-- assert self.length == len(data) in CmsDataBlock init. -/
  | truncatedPayload : DecodeError
  /-- struct.error or IndexError inside a block decoder. -/
  | outOfBounds : DecodeError
  /-- UnicodeDecodeError from bytes.decode(). -/
  | malformedValue : DecodeError
  /-- int() ValueError on a date field, or a calendar-invalid date. -/
  | badDate : DecodeError
  /-- a reserved byte that must be zero is nonzero; carries its offset. -/
  | reservedNonZero : Nat → DecodeError
  /-- a validity flag outside the set 0 or 255, or an invalid-marked value
  byte that does not equal 255. -/
  | badSentinel : DecodeError
  /-- the 0x45 trailer byte differs from 0xFF. -/
  | badMarker : DecodeError
  /-- assert len(data) == 0 failed for a 0x43 or 0x47 block. -/
  | emptyExpected : DecodeError
  /-- assert len(data) == 4 failed for a 0x45 block. -/
  | badLength : DecodeError
deriving DecidableEq

/-- Python slice data[a:b] for nonnegative a, b. -/
def pySlice (l : List Nat) (a b : Nat) : List Nat := (l.take b).drop a

/-- Python indexing data[i]: IndexError when out of range. -/
def pyIndex (l : List Nat) (i : Nat) : Except DecodeError Nat :=
  match l[i]? with
  | some v => .ok v
  | none => .error .outOfBounds

/-- struct.unpack on data[a:n] needs the list to hold at least n bytes;
models the struct.error raised otherwise. -/
def needLen (l : List Nat) (n : Nat) : Except DecodeError Unit :=
  if n ≤ l.length then .ok () else .error .outOfBounds

/-- Little-endian u16 read at offset k (bytes assumed in range). -/
def u16at (l : List Nat) (k : Nat) : Nat := l.getD k 0 + 256 * l.getD (k + 1) 0

/-- assert v == 0 where v was read from the given offset. -/
def checkZeroByte (v off : Nat) : Except DecodeError Unit :=
  if v = 0 then .ok () else .error (.reservedNonZero off)

/-- Models: data[i] evaluated and compared to 0 by an assert (IndexError
possible, then assertion failure). -/
def checkZeroAt (l : List Nat) (i : Nat) : Except DecodeError Unit :=
  if i < l.length then
    if l.getD i 0 = 0 then .ok () else .error (.reservedNonZero i)
  else .error .outOfBounds

/-- Iteration core of the bounded reserved-zero loop: fuel counts the
remaining iterations (hi - lo at the call site). -/
def checkZeroRangeAux (l : List Nat) : Nat → Nat → Except DecodeError Unit
  | 0, _ => .ok ()
  | fuel + 1, lo =>
    if lo < l.length then
      if l.getD lo 0 = 0 then checkZeroRangeAux l fuel (lo + 1)
      else .error (.reservedNonZero lo)
    else .error .outOfBounds

/-- Models: for i in range(lo, hi): assert data[i] == 0, i (the indexing
raises IndexError past the end of the list). -/
def checkZeroRange (l : List Nat) (lo hi : Nat) : Except DecodeError Unit :=
  checkZeroRangeAux l (hi - lo) lo

/-- Iteration core of the reserved-zero loop running to the end of the
payload; fuel is l.length - s at the call site, so the index never leaves
the list. -/
def checkZeroFromAux (l : List Nat) : Nat → Nat → Except DecodeError Unit
  | 0, _ => .ok ()
  | fuel + 1, s =>
    if l.getD s 0 = 0 then checkZeroFromAux l fuel (s + 1)
    else .error (.reservedNonZero s)

/-- Models: for i in range(s, len(data)): assert data[i] == 0, i. -/
def checkZeroFrom (l : List Nat) (s : Nat) : Except DecodeError Unit :=
  checkZeroFromAux l (l.length - s) s

/-- assert b, failing with error e. -/
def guardE (b : Bool) (e : DecodeError) : Except DecodeError Unit :=
  if b then .ok () else .error e

/-- Strict UTF-8 decoding of a byte list into code points, as performed by
bytes.decode() in Python: rejects continuation errors, overlong forms,
surrogates and code points above 0x10FFFF. -/
def utf8Decode : List Nat → Option (List Nat)
  | [] => some []
  | b :: rest =>
    if b ≤ 0x7F then (utf8Decode rest).map (fun cs => b :: cs)
    else if b < 0xC2 then none
    else if b ≤ 0xDF then
      match rest with
      | b1 :: r =>
        if 0x80 ≤ b1 ∧ b1 ≤ 0xBF then
          (utf8Decode r).map (fun cs => ((b - 0xC0) * 0x40 + (b1 - 0x80)) :: cs)
        else none
      | [] => none
    else if b ≤ 0xEF then
      match rest with
      | b1 :: b2 :: r =>
        if (if b = 0xE0 then 0xA0 ≤ b1 ∧ b1 ≤ 0xBF
            else if b = 0xED then 0x80 ≤ b1 ∧ b1 ≤ 0x9F
            else 0x80 ≤ b1 ∧ b1 ≤ 0xBF) ∧ 0x80 ≤ b2 ∧ b2 ≤ 0xBF then
          (utf8Decode r).map
            (fun cs => ((b - 0xE0) * 0x1000 + (b1 - 0x80) * 0x40 + (b2 - 0x80)) :: cs)
        else none
      | _ => none
    else if b ≤ 0xF4 then
      match rest with
      | b1 :: b2 :: b3 :: r =>
        if (if b = 0xF0 then 0x90 ≤ b1 ∧ b1 ≤ 0xBF
            else if b = 0xF4 then 0x80 ≤ b1 ∧ b1 ≤ 0x8F
            else 0x80 ≤ b1 ∧ b1 ≤ 0xBF) ∧ 0x80 ≤ b2 ∧ b2 ≤ 0xBF ∧ 0x80 ≤ b3 ∧ b3 ≤ 0xBF then
          (utf8Decode r).map
            (fun cs => ((b - 0xF0) * 0x40000 + (b1 - 0x80) * 0x1000
                        + (b2 - 0x80) * 0x40 + (b3 - 0x80)) :: cs)
        else none
      | _ => none
    else none

/-- str.strip of NUL characters from both ends, as in the local helper
_decode of CmsDataBlock3E. -/
def stripNul (cs : List Nat) : List Nat :=
  ((cs.dropWhile (· == 0)).reverse.dropWhile (· == 0)).reverse

/-- ASCII whitespace stripped by int() before parsing. -/
def isPySpace (c : Nat) : Bool :=
  c == 0x20 || c == 0x9 || c == 0xA || c == 0xB || c == 0xC || c == 0xD

/-- ASCII decimal digit. -/
def isDigitC (c : Nat) : Bool := decide (0x30 ≤ c ∧ c ≤ 0x39)

/-- Continue parsing a digit run in which single underscores may separate
digits, per the int() grammar. -/
def digitsTail (acc : Nat) : List Nat → Option Nat
  | [] => some acc
  | c :: r =>
    if isDigitC c then digitsTail (acc * 10 + (c - 0x30)) r
    else if c = 0x5F then
      match r with
      | d :: r2 => if isDigitC d then digitsTail (acc * 10 + (d - 0x30)) r2 else none
      | [] => none
    else none

/-- Parse a nonempty digit run (with optional internal underscores). -/
def digitsVal : List Nat → Option Nat
  | [] => none
  | c :: r => if isDigitC c then digitsTail (c - 0x30) r else none

/-- Python int() applied to a string given as code points (ASCII part of its
grammar: surrounding whitespace, optional sign, digits with single internal
underscores). -/
def pyInt (cs : List Nat) : Option Int :=
  match ((cs.dropWhile isPySpace).reverse.dropWhile isPySpace).reverse with
  | 0x2B :: r => (digitsVal r).map (fun n => (n : Int))
  | 0x2D :: r => (digitsVal r).map (fun n => -(n : Int))
  | r => (digitsVal r).map (fun n => (n : Int))

/-- Gregorian leap year, as used by datetime. -/
def isLeap (y : Int) : Bool :=
  y % 4 == 0 && (!(y % 100 == 0) || y % 400 == 0)

/-- Days in a month of the proleptic Gregorian calendar. -/
def daysInMonth (y m : Int) : Int :=
  if m = 1 ∨ m = 3 ∨ m = 5 ∨ m = 7 ∨ m = 8 ∨ m = 10 ∨ m = 12 then 31
  else if m = 4 ∨ m = 6 ∨ m = 9 ∨ m = 11 then 30
  else if isLeap y then 29 else 28

/-- Validity domain of datetime.date(year, month, day). -/
def pyDateValid (y m d : Int) : Bool :=
  decide (1 ≤ y ∧ y ≤ 9999 ∧ 1 ≤ m ∧ m ≤ 12 ∧ 1 ≤ d) && decide (d ≤ daysInMonth y m)

/-- Validity domain of datetime.datetime(year, month, day, hour, min, sec). -/
def pyDatetimeValid (y mo d h mi s : Nat) : Bool :=
  pyDateValid (y : Int) (mo : Int) (d : Int) && decide (h ≤ 23 ∧ mi ≤ 59 ∧ s ≤ 59)

/-- bytes.decode() as a fallible step: UnicodeDecodeError on invalid UTF-8. -/
def optUtf8 (l : List Nat) : Except DecodeError (List Nat) :=
  match utf8Decode l with
  | some m => .ok m
  | none => .error .malformedValue

/-- _decode(data[a:b]): UTF-8 decode then strip NUL from both ends. -/
def pyDecodeField (l : List Nat) (a b : Nat) : Except DecodeError (List Nat) :=
  (optUtf8 (pySlice l a b)).map stripNul

/-- int() as a fallible step; its ValueError surfaces as badDate since the
only int() call sites are date fields. -/
def pyIntOpt (cs : List Nat) : Except DecodeError Int :=
  match pyInt cs with
  | some v => .ok v
  | none => .error .badDate

/-- int(_decode(data[a:b])). -/
def pyIntField (l : List Nat) (a b : Nat) : Except DecodeError Int :=
  pyDecodeField l a b >>= pyIntOpt

/-- assert self.length == len(data) in CmsDataBlock init (the frame length
must match the payload actually obtained). -/
def mkBase (length : Nat) (data : List Nat) : Except DecodeError Unit :=
  if length = data.length then .ok () else .error .truncatedPayload

/-- Decoded record of a 0x3E patient-info block (the values dict of
CmsDataBlock3E).  String fields hold the decoded code points; height and
weight are held exactly as rationals. -/
structure PatientInfoR where
  department : List Nat
  bed : Nat
  patient_name : List Nat
  patient_number : List Nat
  admit_year : Int
  admit_month : Int
  admit_day : Int
  height_m : ℚ
  weight_kg : ℚ
  unk_78 : List Nat
  birth_year : Int
  birth_month : Int
  birth_day : Int
  blood_type : Nat
  doctor_name : List Nat
deriving DecidableEq

/-- Body of CmsDataBlock3E init after the base-class check, statement by
statement in source order. -/
def body3E (data : List Nat) : Except DecodeError PatientInfoR := do
  let department ← pyDecodeField data 0x0 0x20
  checkZeroAt data 0x20
  checkZeroAt data 0x21
  let bed ← pyIndex data 0x22
  let patient_name ← pyDecodeField data 0x23 0x43
  let patient_number ← pyDecodeField data 0x43 0x63
  let admit_year ← pyIntField data 0x63 0x68
  let admit_month ← pyIntField data 0x68 0x6B
  let admit_day ← pyIntField data 0x6B 0x6E
  guardE (pyDateValid admit_year admit_month admit_day) .badDate
  checkZeroRange data 0x6E 0x74
  needLen data 0x78
  let height := u16at data 0x74
  let weight := u16at data 0x76
  let unk_78 := pySlice data 0x78 0x7C
  let birth_year ← pyIntField data 0x7C 0x81
  let birth_month ← pyIntField data 0x81 0x84
  let birth_day ← pyIntField data 0x84 0x87
  guardE (pyDateValid birth_year birth_month birth_day) .badDate
  checkZeroRange data 0x87 0x8B
  let blood_type ← pyIndex data 0x8C
  let doctor_name ← pyDecodeField data 0x8D 0xAD
  checkZeroFrom data 0xAD
  .ok ⟨department, bed, patient_name, patient_number,
       admit_year, admit_month, admit_day,
       (height : ℚ) / 1000, (weight : ℚ) / 10, unk_78,
       birth_year, birth_month, birth_day, blood_type, doctor_name⟩

/-- Body of CmsDataBlock45 init: bed-assignment payload. -/
def body45 (data : List Nat) : Except DecodeError Nat := do
  guardE (data.length == 4) .badLength
  checkZeroByte (data.getD 0 0) 0
  checkZeroByte (data.getD 1 0) 1
  guardE (data.getD 3 0 == 0xFF) .badMarker
  .ok (data.getD 2 0)

/-- Decoded record of a lead 0x14 telemetry block (ECG / respiration).
Unknown float regions are kept as their raw bytes. -/
structure Lead14R where
  ecg1 : List Nat
  ecg2 : List Nat
  ecg3 : List Nat
  resp_wave : List Nat
  hr : Option Nat
  hr_valid : Bool
  resp : Option Nat
  resp_valid : Bool
  unk_388 : List Nat
  hr_max : Nat
  hr_min : Nat
  hr_set : Nat
  resp_max : Nat
  resp_min : Nat
  resp_set : Nat
  unk_394 : List Nat
  unk_3af : List Nat
  pvc_max : Nat
  pvc_min : Nat
  pvc_set : Nat
deriving DecidableEq

/-- _decode_lead_14, statement by statement in source order. -/
def decodeLead14 (data : List Nat) : Except DecodeError Lead14R := do
  let ecg1 := pySlice data 0x4 0x104
  let ecg2 := pySlice data 0x104 0x204
  let ecg3 := pySlice data 0x204 0x304
  let resp_wave := pySlice data 0x304 0x384
  needLen data 0x388
  let hr := data.getD 0x384 0
  let hr_v := data.getD 0x385 0
  let rr := data.getD 0x386 0
  let rr_v := data.getD 0x387 0
  guardE (hr_v == 0 || hr_v == 255) .badSentinel
  guardE (rr_v == 0 || rr_v == 255) .badSentinel
  needLen data 0x394
  let unk_388 := pySlice data 0x388 0x394
  needLen data 0x3AF
  let hr_max := u16at data 0x3A3
  let hr_min := u16at data 0x3A5
  let hr_set := u16at data 0x3A7
  let resp_max := u16at data 0x3A9
  let resp_min := u16at data 0x3AB
  let resp_set := u16at data 0x3AD
  let unk_394 := pySlice data 0x394 0x3A3
  needLen data 0x3CD
  let unk_3af := pySlice data 0x3AF 0x3CD
  needLen data 0x3D3
  let pvc_max := u16at data 0x3CD
  let pvc_min := u16at data 0x3CF
  let pvc_set := u16at data 0x3D1
  checkZeroFrom data 0x3D3
  .ok ⟨ecg1, ecg2, ecg3, resp_wave,
       if hr_v == 0 then some hr else none, hr_v == 0,
       if rr_v == 0 then some rr else none, rr_v == 0,
       unk_388, hr_max, hr_min, hr_set, resp_max, resp_min, resp_set,
       unk_394, unk_3af, pvc_max, pvc_min, pvc_set⟩

/-- Decoded record of a lead 0x15 telemetry block (SpO2 / pleth). -/
structure Lead15R where
  pleth : List Nat
  spo2 : Option Nat
  spo2_attached : Bool
  spo2_hr : Option Nat
  spo2_valid : Bool
  spo2_max : Nat
  spo2_min : Nat
  spo2_set : Nat
  spo2_hr_max : Nat
  spo2_hr_min : Nat
  spo2_hr_set : Nat
deriving DecidableEq

/-- _decode_lead_15, statement by statement in source order. -/
def decodeLead15 (data : List Nat) : Except DecodeError Lead15R := do
  let pleth := pySlice data 0x4 0x104
  needLen data 0x108
  let spo2 := data.getD 0x104 0
  let att := data.getD 0x105 0
  let shr := data.getD 0x106 0
  let sval := data.getD 0x107 0
  guardE (att == 0 || att == 255) .badSentinel
  guardE (sval == 0 || sval == 255) .badSentinel
  guardE (sval == 0 || (spo2 == 255 && shr == 255)) .badSentinel
  needLen data 0x114
  let spo2_min := u16at data 0x108
  let spo2_max := u16at data 0x10A
  let spo2_set := u16at data 0x10C
  let spo2_hr_min := u16at data 0x10E
  let spo2_hr_max := u16at data 0x110
  let spo2_hr_set := u16at data 0x112
  checkZeroFrom data 0x114
  .ok ⟨pleth, if sval == 0 then some spo2 else none, att == 0,
       if sval == 0 then some shr else none, sval == 0,
       spo2_max, spo2_min, spo2_set, spo2_hr_max, spo2_hr_min, spo2_hr_set⟩

/-- Decoded record of a lead 0x16 telemetry block (NIBP). -/
structure Lead16R where
  nibp_year : Nat
  nibp_mon : Nat
  nibp_day : Nat
  nibp_hour : Nat
  nibp_min : Nat
  nibp_sec : Nat
  nibp_sys : Nat
  nibp_dia : Nat
  nibp_map : Nat
  bp_sys_max : Nat
  bp_sys_min : Nat
  bp_sys_set : Nat
  bp_dia_max : Nat
  bp_dia_min : Nat
  bp_dia_set : Nat
  bp_map_max : Nat
  bp_map_min : Nat
  bp_map_set : Nat
deriving DecidableEq

/-- _decode_lead_16, statement by statement in source order. -/
def decodeLead16 (data : List Nat) : Except DecodeError Lead16R := do
  needLen data 0x11
  let bp_year := u16at data 0x4
  let bp_mon := data.getD 0x6 0
  let bp_day := data.getD 0x7 0
  let bp_hr := data.getD 0x8 0
  let bp_min := data.getD 0x9 0
  let bp_sec := data.getD 0xA 0
  let bp_sys := u16at data 0xB
  let bp_dia := u16at data 0xD
  let bp_map := u16at data 0xF
  guardE (pyDatetimeValid bp_year bp_mon bp_day bp_hr bp_min bp_sec) .badDate
  needLen data 0x23
  let bp_sys_max := u16at data 0x11
  let bp_sys_min := u16at data 0x13
  let bp_sys_set := u16at data 0x15
  let bp_dia_max := u16at data 0x17
  let bp_dia_min := u16at data 0x19
  let bp_dia_set := u16at data 0x1B
  let bp_map_max := u16at data 0x1D
  let bp_map_min := u16at data 0x1F
  let bp_map_set := u16at data 0x21
  checkZeroFrom data 0x23
  .ok ⟨bp_year, bp_mon, bp_day, bp_hr, bp_min, bp_sec, bp_sys, bp_dia, bp_map,
       bp_sys_max, bp_sys_min, bp_sys_set, bp_dia_max, bp_dia_min, bp_dia_set,
       bp_map_max, bp_map_min, bp_map_set⟩

/-- Decoded record of a lead 0x17 telemetry block (temperatures); float
fields kept as their raw 4-byte groups. -/
structure Lead17R where
  t1 : List Nat
  t2 : List Nat
  td : List Nat
  t1_max : List Nat
  t1_min : List Nat
  t1_set : Nat
  t2_max : List Nat
  t2_min : List Nat
  t2_set : Nat
  td_max : List Nat
  td_min : List Nat
  td_set : Nat
deriving DecidableEq

/-- _decode_lead_17, statement by statement in source order. -/
def decodeLead17 (data : List Nat) : Except DecodeError Lead17R := do
  needLen data 0x2E
  let t1 := pySlice data 0x4 0x8
  let t2 := pySlice data 0x8 0xC
  let td := pySlice data 0xC 0x10
  let t1_max := pySlice data 0x10 0x14
  let t1_min := pySlice data 0x14 0x18
  let t1_set := u16at data 0x18
  let t2_max := pySlice data 0x1A 0x1E
  let t2_min := pySlice data 0x1E 0x22
  let t2_set := u16at data 0x22
  let td_max := pySlice data 0x24 0x28
  let td_min := pySlice data 0x28 0x2C
  let td_set := u16at data 0x2C
  checkZeroFrom data 0x2E
  .ok ⟨t1, t2, td, t1_max, t1_min, t1_set, t2_max, t2_min, t2_set,
       td_max, td_min, td_set⟩

/-- Lead-level content of a 0x46 telemetry block. -/
inductive LeadRecord where
  | l14 : Lead14R → LeadRecord
  | l15 : Lead15R → LeadRecord
  | l16 : Lead16R → LeadRecord
  | l17 : Lead17R → LeadRecord
  | unk : List Nat → LeadRecord
deriving DecidableEq

/-- Body of CmsDataBlock46 init after the base-class check: header unpack,
reserved asserts, and the lead dispatch. -/
def body46 (data : List Nat) : Except DecodeError (Nat × LeadRecord) := do
  needLen data 4
  checkZeroByte (data.getD 0 0) 0
  checkZeroByte (data.getD 1 0) 1
  checkZeroByte (data.getD 3 0) 3
  if data.getD 2 0 = 0x14 then (decodeLead14 data).map (fun r => (data.getD 2 0, .l14 r))
  else if data.getD 2 0 = 0x15 then (decodeLead15 data).map (fun r => (data.getD 2 0, .l15 r))
  else if data.getD 2 0 = 0x16 then (decodeLead16 data).map (fun r => (data.getD 2 0, .l16 r))
  else if data.getD 2 0 = 0x17 then (decodeLead17 data).map (fun r => (data.getD 2 0, .l17 r))
  else .ok (data.getD 2 0, .unk (data.drop 4))

/-- Body of CmsDataBlock49 init: error code and UTF-8 decoded message. -/
def body49 (data : List Nat) : Except DecodeError (Nat × List Nat) := do
  let code ← pyIndex data 0
  let msg ← optUtf8 (data.drop 1)
  .ok (code, msg)

/-- The decoded block objects, each carrying the length and raw payload kept
by the CmsDataBlock base class plus the variant-specific decoded fields. -/
inductive CmsBlock where
  | raw : Nat → Nat → List Nat → CmsBlock
  | b3E : Nat → List Nat → PatientInfoR → CmsBlock
  | b43 : Nat → List Nat → CmsBlock
  | b45 : Nat → List Nat → Nat → CmsBlock
  | b46 : Nat → List Nat → Nat → LeadRecord → CmsBlock
  | b47 : Nat → List Nat → CmsBlock
  | b49 : Nat → List Nat → Nat → List Nat → CmsBlock
deriving DecidableEq

/-- self.length stored by CmsDataBlock. -/
def CmsBlock.len : CmsBlock → Nat
  | .raw l _ _ => l
  | .b3E l _ _ => l
  | .b43 l _ => l
  | .b45 l _ _ => l
  | .b46 l _ _ _ => l
  | .b47 l _ => l
  | .b49 l _ _ _ => l

/-- self.data stored by CmsDataBlock. -/
def CmsBlock.pdata : CmsBlock → List Nat
  | .raw _ _ d => d
  | .b3E _ d _ => d
  | .b43 _ d => d
  | .b45 _ d _ => d
  | .b46 _ d _ _ => d
  | .b47 _ d => d
  | .b49 _ d _ _ => d

/-- CmsDataBlock3E(length, data). -/
def decode3E (length : Nat) (data : List Nat) : Except DecodeError CmsBlock :=
  mkBase length data >>= fun _ => (body3E data).map (CmsBlock.b3E length data)

/-- CmsDataBlock43(length, data). -/
def decode43 (length : Nat) (data : List Nat) : Except DecodeError CmsBlock :=
  mkBase length data >>= fun _ =>
    (guardE (data.length == 0) .emptyExpected).map (fun _ => CmsBlock.b43 length data)

/-- CmsDataBlock45(length, data). -/
def decode45 (length : Nat) (data : List Nat) : Except DecodeError CmsBlock :=
  mkBase length data >>= fun _ => (body45 data).map (CmsBlock.b45 length data)

/-- CmsDataBlock46(length, data). -/
def decode46 (length : Nat) (data : List Nat) : Except DecodeError CmsBlock :=
  mkBase length data >>= fun _ =>
    (body46 data).map (fun p => CmsBlock.b46 length data p.1 p.2)

/-- CmsDataBlock47(length, data). -/
def decode47 (length : Nat) (data : List Nat) : Except DecodeError CmsBlock :=
  mkBase length data >>= fun _ =>
    (guardE (data.length == 0) .emptyExpected).map (fun _ => CmsBlock.b47 length data)

/-- CmsDataBlock49(length, data). -/
def decode49 (length : Nat) (data : List Nat) : Except DecodeError CmsBlock :=
  mkBase length data >>= fun _ =>
    (body49 data).map (fun p => CmsBlock.b49 length data p.1 p.2)

/-- _get_block(length, block_type, data): the dispatcher. -/
def getBlock (length block_type : Nat) (data : List Nat) : Except DecodeError CmsBlock :=
  if block_type = 0x3E then decode3E length data
  else if block_type = 0x43 then decode43 length data
  else if block_type = 0x45 then decode45 length data
  else if block_type = 0x46 then decode46 length data
  else if block_type = 0x47 then decode47 length data
  else if block_type = 0x49 then decode49 length data
  else mkBase length data >>= fun _ => .ok (CmsBlock.raw length block_type data)

/-- struct.unpack of exactly two bytes from a header slice; struct.error
when the slice is shorter. -/
def unpack2 (l : List Nat) : Except DecodeError (Nat × Nat) :=
  if l.length = 2 then .ok (l.getD 0 0, l.getD 1 0) else .error .headerTruncated

/-- cms_read_block_from_bytes(data, offset): the u16 LE declared length,
the length lower bound, the magic byte, the payload slice, the dispatch. -/
def cms_read_block_from_bytes (data : List Nat) (offset : Nat) :
    Except DecodeError CmsBlock :=
  unpack2 (pySlice data offset (offset + 2)) >>= fun lp =>
    if lp.1 + 256 * lp.2 < 2 then .error .shortFrame
    else
      unpack2 (pySlice data (offset + 2) (offset + 4)) >>= fun hp =>
        if hp.1 = 0x05 then
          getBlock (lp.1 + 256 * lp.2 - 2) hp.2
            (pySlice data (offset + 4) (offset + 4 + (lp.1 + 256 * lp.2 - 2)))
        else .error .badMagic

/-- A fully valid 0x3E payload of the minimal 0xAD bytes: zero strings, bed
0, admit date 2020-12-01, height 1700 mm, weight 674 dkg, birth date
1980-01-01, blood type 0x41. -/
def good3E : List Nat :=
  List.replicate 0x63 0 ++
  ([0x30, 0x32, 0x30, 0x32, 0x30, 0x30, 0x31, 0x32, 0x30, 0x30, 0x31] ++
   (List.replicate 6 0 ++
    ([0xA4, 0x06, 0xA2, 0x02, 0, 0, 0, 0,
      0x30, 0x31, 0x39, 0x38, 0x30, 0x30, 0x30, 0x31, 0x30, 0x30, 0x31] ++
     (List.replicate 4 0 ++ ([0, 0x41] ++ List.replicate 0x20 0)))))

/-- The record good3E decodes to. -/
def good3Erec : PatientInfoR :=
  ⟨[], 0, [], [], 2020, 12, 1, 17 / 10, 337 / 5, [0, 0, 0, 0], 1980, 1, 1, 0x41, []⟩

/-- A 0x3E payload whose admit-date field holds the all-digit but
calendar-invalid month 013 (admit date 02020-013-001). -/
def bad3E : List Nat :=
  List.replicate 0x63 0 ++
  [0x30, 0x32, 0x30, 0x32, 0x30, 0x30, 0x31, 0x33, 0x30, 0x30, 0x31]

/-- A lead 0x14 payload of 0x3D3 bytes that is well formed except that the
heart-rate validity flag is 255 (invalid) while the heart-rate value byte is
42, not 255; the respiration pair is 60 with flag 0. -/
def p14 : List Nat :=
  0 :: 0 :: 0x14 :: 0 ::
    (List.replicate 0x380 0 ++ ([42, 255, 60, 0] ++ List.replicate 0x4B 0))

/-- The record p14 decodes to: heart rate absent, respiration 60 present. -/
def p14rec : Lead14R :=
  ⟨List.replicate 0x100 0, List.replicate 0x100 0, List.replicate 0x100 0,
   List.replicate 0x80 0, none, false, some 60, true, List.replicate 0xC 0,
   0, 0, 0, 0, 0, 0, List.replicate 0xF 0, List.replicate 0x1E 0, 0, 0, 0⟩

/-- The reserved-zero byte offsets of a typed payload, per block type (and,
for telemetry, per lead): the layout quantification domain of the
reserved-zero law. -/
def reservedOff (t : Nat) (data : List Nat) (i : Nat) : Prop :=
  if t = 0x3E then
    i = 0x20 ∨ i = 0x21 ∨ (0x6E ≤ i ∧ i < 0x74) ∨ (0x87 ≤ i ∧ i < 0x8B) ∨
      (0xAD ≤ i ∧ i < data.length)
  else if t = 0x45 then i = 0 ∨ i = 1
  else if t = 0x46 then
    i = 0 ∨ i = 1 ∨ i = 3 ∨
      ((data.getD 2 0 = 0x14 ∧ 0x3D3 ≤ i ∧ i < data.length) ∨
       (data.getD 2 0 = 0x15 ∧ 0x114 ≤ i ∧ i < data.length) ∨
       (data.getD 2 0 = 0x16 ∧ 0x23 ≤ i ∧ i < data.length) ∨
       (data.getD 2 0 = 0x17 ∧ 0x2E ≤ i ∧ i < data.length))
  else False

/-! ### Basic lemmas about the byte primitives -/

theorem ok_bind {α β : Type} (a : α) (f : α → Except DecodeError β) :
    (Except.ok a >>= f) = f a := rfl

theorem error_bind {α β : Type} (e : DecodeError) (f : α → Except DecodeError β) :
    ((Except.error e : Except DecodeError α) >>= f) = Except.error e := rfl

theorem map_ok {α β : Type} (a : α) (f : α → β) :
    (Except.ok a : Except DecodeError α).map f = Except.ok (f a) := rfl

theorem map_error {α β : Type} (e : DecodeError) (f : α → β) :
    (Except.error e : Except DecodeError α).map f = Except.error e := rfl

theorem pySlice_getElem (l : List Nat) (a b j : Nat) :
    (pySlice l a b)[j]? = if a + j < b then l[a + j]? else none := by
  simp [pySlice, List.getElem?_drop, List.getElem?_take]

theorem pySlice_congr {l1 l2 : List Nat} (a b : Nat)
    (h : ∀ j, a ≤ j → j < b → l1[j]? = l2[j]?) :
    pySlice l1 a b = pySlice l2 a b := by
  apply List.ext_getElem?
  intro n
  rw [pySlice_getElem, pySlice_getElem]
  split
  · next hn => exact h (a + n) (Nat.le_add_right a n) hn
  · rfl

theorem pySlice_set_of_le (l : List Nat) (i v a b : Nat) (h : b ≤ i) :
    pySlice (l.set i v) a b = pySlice l a b := by
  apply pySlice_congr
  intro j _ hj
  exact List.getElem?_set_ne (by omega)

theorem getD_set_ne (l : List Nat) (i v j : Nat) (h : i ≠ j) :
    (l.set i v).getD j 0 = l.getD j 0 := by
  rw [List.getD_eq_getElem?_getD, List.getD_eq_getElem?_getD, List.getElem?_set_ne h]

theorem getD_set_self (l : List Nat) (i v : Nat) (h : i < l.length) :
    (l.set i v).getD i 0 = v := by
  rw [List.getD_eq_getElem?_getD, List.getElem?_set_self h]
  rfl

theorem getD_congr {l1 l2 : List Nat} (j : Nat) (h : l1[j]? = l2[j]?) :
    l1.getD j 0 = l2.getD j 0 := by
  rw [List.getD_eq_getElem?_getD, List.getD_eq_getElem?_getD, h]

theorem u16at_congr {l1 l2 : List Nat} (k : Nat)
    (h1 : l1[k]? = l2[k]?) (h2 : l1[k + 1]? = l2[k + 1]?) :
    u16at l1 k = u16at l2 k := by
  unfold u16at
  rw [getD_congr k h1, getD_congr (k + 1) h2]

theorem u16at_set_of_le (l : List Nat) (i v k : Nat) (h : k + 1 < i) :
    u16at (l.set i v) k = u16at l k := by
  apply u16at_congr <;> exact List.getElem?_set_ne (by omega)

theorem needLen_set (l : List Nat) (i v n : Nat) :
    needLen (l.set i v) n = needLen l n := by
  simp [needLen, List.length_set]

theorem needLen_congr {l1 l2 : List Nat} (n : Nat) (h : l1.length = l2.length) :
    needLen l1 n = needLen l2 n := by
  simp [needLen, h]

theorem pyIndex_congr {l1 l2 : List Nat} (i : Nat) (h : l1[i]? = l2[i]?) :
    pyIndex l1 i = pyIndex l2 i := by
  simp [pyIndex, h]

theorem pyIndex_set_ne (l : List Nat) (i v j : Nat) (h : i ≠ j) :
    pyIndex (l.set i v) j = pyIndex l j :=
  pyIndex_congr j (List.getElem?_set_ne h)

theorem getElem?_some_lt {l : List Nat} {i v : Nat} (h : l[i]? = some v) :
    i < l.length := by
  by_contra hc
  rw [List.getElem?_eq_none (by omega)] at h
  cases h

theorem checkZeroAt_congr {l1 l2 : List Nat} (i : Nat) (h : l1[i]? = l2[i]?) :
    checkZeroAt l1 i = checkZeroAt l2 i := by
  unfold checkZeroAt
  cases hv : l1[i]? with
  | none =>
    have h2 : l2[i]? = none := by rw [← h, hv]
    have n1 : ¬i < l1.length := by
      intro hc
      rw [List.getElem?_eq_getElem hc] at hv
      cases hv
    have n2 : ¬i < l2.length := by
      intro hc
      rw [List.getElem?_eq_getElem hc] at h2
      cases h2
    rw [if_neg n1, if_neg n2]
  | some v =>
    have h2 : l2[i]? = some v := by rw [← h, hv]
    rw [if_pos (getElem?_some_lt hv), if_pos (getElem?_some_lt h2), getD_congr i h]

theorem checkZeroAt_set_ne (l : List Nat) (i v j : Nat) (h : i ≠ j) :
    checkZeroAt (l.set i v) j = checkZeroAt l j :=
  checkZeroAt_congr j (List.getElem?_set_ne h)

theorem pyDecodeField_congr {l1 l2 : List Nat} (a b : Nat)
    (h : ∀ j, a ≤ j → j < b → l1[j]? = l2[j]?) :
    pyDecodeField l1 a b = pyDecodeField l2 a b := by
  unfold pyDecodeField
  rw [pySlice_congr a b h]

theorem pyDecodeField_set_of_le (l : List Nat) (i v a b : Nat) (h : b ≤ i) :
    pyDecodeField (l.set i v) a b = pyDecodeField l a b := by
  unfold pyDecodeField
  rw [pySlice_set_of_le l i v a b h]

theorem pyIntField_congr {l1 l2 : List Nat} (a b : Nat)
    (h : ∀ j, a ≤ j → j < b → l1[j]? = l2[j]?) :
    pyIntField l1 a b = pyIntField l2 a b := by
  unfold pyIntField
  rw [pyDecodeField_congr a b h]

theorem pyIntField_set_of_le (l : List Nat) (i v a b : Nat) (h : b ≤ i) :
    pyIntField (l.set i v) a b = pyIntField l a b := by
  unfold pyIntField
  rw [pyDecodeField_set_of_le l i v a b h]

theorem mkBase_set (length : Nat) (l : List Nat) (i v : Nat) :
    mkBase length (l.set i v) = mkBase length l := by
  simp [mkBase, List.length_set]

theorem checkZeroFromAux_ok_iff (l : List Nat) :
    ∀ fuel s, checkZeroFromAux l fuel s = .ok () ↔
      ∀ j, s ≤ j → j < s + fuel → l.getD j 0 = 0 := by
  intro fuel
  induction fuel with
  | zero =>
    intro s
    simp [checkZeroFromAux]
    intro j hj hjl
    exact absurd hjl (by omega)
  | succ fuel ih =>
    intro s
    rw [checkZeroFromAux]
    by_cases hz : l.getD s 0 = 0
    · rw [if_pos hz, ih (s + 1)]
      constructor
      · intro h j hj hjl
        rcases Nat.eq_or_lt_of_le hj with rfl | h2
        · exact hz
        · exact h j h2 (by omega)
      · intro h j hj hjl
        exact h j (by omega) (by omega)
    · rw [if_neg hz]
      constructor
      · intro h
        exact absurd h (by simp)
      · intro h
        exact absurd (h s (Nat.le_refl s) (by omega)) hz

theorem checkZeroFrom_ok_iff (l : List Nat) (s : Nat) :
    checkZeroFrom l s = .ok () ↔ ∀ j, s ≤ j → j < l.length → l.getD j 0 = 0 := by
  unfold checkZeroFrom
  rw [checkZeroFromAux_ok_iff l (l.length - s) s]
  by_cases hs : s ≤ l.length
  · constructor
    · intro h j hj hjl
      exact h j hj (by omega)
    · intro h j hj hjl
      exact h j hj (by omega)
  · constructor
    · intro h j hj hjl
      exact absurd hjl (by omega)
    · intro h j hj hjl
      exact absurd hjl (by omega)

theorem checkZeroFromAux_congr {l1 l2 : List Nat} :
    ∀ fuel s, (∀ j, s ≤ j → l1[j]? = l2[j]?) →
      checkZeroFromAux l1 fuel s = checkZeroFromAux l2 fuel s := by
  intro fuel
  induction fuel with
  | zero =>
    intro s _
    rfl
  | succ fuel ih =>
    intro s hag
    rw [checkZeroFromAux]
    conv_rhs => rw [checkZeroFromAux]
    rw [getD_congr s (hag s (Nat.le_refl s)), ih (s + 1) (fun j hj => hag j (by omega))]

theorem checkZeroFrom_congr {l1 l2 : List Nat} (s : Nat) (hlen : l1.length = l2.length)
    (hag : ∀ j, s ≤ j → l1[j]? = l2[j]?) :
    checkZeroFrom l1 s = checkZeroFrom l2 s := by
  unfold checkZeroFrom
  rw [hlen, checkZeroFromAux_congr (l2.length - s) s hag]

theorem checkZeroFromAux_flip (l : List Nat) (i v : Nat) (hv : v ≠ 0)
    (hi : i < l.length) :
    ∀ fuel s, s ≤ i → i < s + fuel → (∀ j, s ≤ j → j < i → l.getD j 0 = 0) →
      checkZeroFromAux (l.set i v) fuel s = .error (.reservedNonZero i) := by
  intro fuel
  induction fuel with
  | zero =>
    intro s hsi hif hz
    exact absurd hif (by omega)
  | succ fuel ih =>
    intro s hsi hif hz
    rw [checkZeroFromAux]
    rcases Nat.eq_or_lt_of_le hsi with rfl | hlt
    · rw [getD_set_self l s v hi, if_neg hv]
    · rw [getD_set_ne l i v s (by omega), if_pos (hz s (Nat.le_refl s) hlt)]
      exact ih (s + 1) (by omega) (by omega) (fun j hj hji => hz j (by omega) hji)

theorem checkZeroFrom_flip (l : List Nat) (i v s : Nat) (hv : v ≠ 0)
    (hi : i < l.length) (hsi : s ≤ i)
    (hz : ∀ j, s ≤ j → j < i → l.getD j 0 = 0) :
    checkZeroFrom (l.set i v) s = .error (.reservedNonZero i) := by
  unfold checkZeroFrom
  rw [List.length_set]
  exact checkZeroFromAux_flip l i v hv hi (l.length - s) s hsi (by omega) hz

theorem checkZeroRangeAux_ok_iff (l : List Nat) :
    ∀ fuel lo, checkZeroRangeAux l fuel lo = .ok () ↔
      ∀ j, lo ≤ j → j < lo + fuel → j < l.length ∧ l.getD j 0 = 0 := by
  intro fuel
  induction fuel with
  | zero =>
    intro lo
    simp [checkZeroRangeAux]
    intro j hj hjl
    exact absurd hjl (by omega)
  | succ fuel ih =>
    intro lo
    rw [checkZeroRangeAux]
    by_cases hl : lo < l.length
    · rw [if_pos hl]
      by_cases hz : l.getD lo 0 = 0
      · rw [if_pos hz, ih (lo + 1)]
        constructor
        · intro h j hj hjl
          rcases Nat.eq_or_lt_of_le hj with rfl | h2
          · exact ⟨hl, hz⟩
          · exact h j h2 (by omega)
        · intro h j hj hjl
          exact h j (by omega) (by omega)
      · rw [if_neg hz]
        constructor
        · intro h
          exact absurd h (by simp)
        · intro h
          exact absurd (h lo (Nat.le_refl lo) (by omega)).2 hz
    · rw [if_neg hl]
      constructor
      · intro h
        exact absurd h (by simp)
      · intro h
        exact absurd (h lo (Nat.le_refl lo) (by omega)).1 hl

theorem checkZeroRange_ok_iff (l : List Nat) (lo hi : Nat) :
    checkZeroRange l lo hi = .ok () ↔
      ∀ j, lo ≤ j → j < hi → j < l.length ∧ l.getD j 0 = 0 := by
  unfold checkZeroRange
  rw [checkZeroRangeAux_ok_iff l (hi - lo) lo]
  by_cases hlo : lo ≤ hi
  · constructor
    · intro h j hj hjh
      exact h j hj (by omega)
    · intro h j hj hjh
      exact h j hj (by omega)
  · constructor
    · intro h j hj hjh
      exact absurd hjh (by omega)
    · intro h j hj hjh
      exact absurd hjh (by omega)

theorem checkZeroRangeAux_congr {l1 l2 : List Nat} (hlen : l1.length = l2.length) :
    ∀ fuel lo, (∀ j, lo ≤ j → j < lo + fuel → l1[j]? = l2[j]?) →
      checkZeroRangeAux l1 fuel lo = checkZeroRangeAux l2 fuel lo := by
  intro fuel
  induction fuel with
  | zero =>
    intro lo _
    rfl
  | succ fuel ih =>
    intro lo hag
    rw [checkZeroRangeAux]
    conv_rhs => rw [checkZeroRangeAux]
    rw [hlen, getD_congr lo (hag lo (Nat.le_refl lo) (by omega)),
        ih (lo + 1) (fun j hj hjh => hag j (by omega) (by omega))]

theorem checkZeroRange_congr {l1 l2 : List Nat} (lo hi : Nat)
    (hlen : l1.length = l2.length)
    (hag : ∀ j, lo ≤ j → j < hi → l1[j]? = l2[j]?) :
    checkZeroRange l1 lo hi = checkZeroRange l2 lo hi := by
  unfold checkZeroRange
  exact checkZeroRangeAux_congr hlen (hi - lo) lo
    (fun j hj hjh => hag j hj (by omega))

theorem checkZeroRange_set_of_le (l : List Nat) (i v lo hi : Nat) (h : hi ≤ i) :
    checkZeroRange (l.set i v) lo hi = checkZeroRange l lo hi :=
  checkZeroRange_congr lo hi (List.length_set l i v)
    (fun j _ hjh => List.getElem?_set_ne (by omega))

theorem checkZeroRangeAux_flip (l : List Nat) (i v : Nat) (hv : v ≠ 0)
    (hi : i < l.length) :
    ∀ fuel lo, lo ≤ i → i < lo + fuel →
      (∀ j, lo ≤ j → j < i → (j < l.length ∧ l.getD j 0 = 0)) →
      checkZeroRangeAux (l.set i v) fuel lo = .error (.reservedNonZero i) := by
  intro fuel
  induction fuel with
  | zero =>
    intro lo hloi hif hz
    exact absurd hif (by omega)
  | succ fuel ih =>
    intro lo hloi hif hz
    rw [checkZeroRangeAux]
    rcases Nat.eq_or_lt_of_le hloi with rfl | hlt
    · rw [if_pos (by rw [List.length_set]; exact hi), getD_set_self l lo v hi,
          if_neg hv]
    · rw [if_pos (by rw [List.length_set]; exact (hz lo (Nat.le_refl lo) hlt).1),
          getD_set_ne l i v lo (by omega), if_pos (hz lo (Nat.le_refl lo) hlt).2]
      exact ih (lo + 1) (by omega) (by omega) (fun j hj hji => hz j (by omega) hji)

theorem checkZeroRange_flip (l : List Nat) (i v lo hi : Nat) (hv : v ≠ 0)
    (hlo : lo ≤ i) (hhi : i < hi)
    (hok : checkZeroRange l lo hi = .ok ()) :
    checkZeroRange (l.set i v) lo hi = .error (.reservedNonZero i) := by
  have hz := (checkZeroRange_ok_iff l lo hi).mp hok
  have hil : i < l.length := (hz i hlo hhi).1
  unfold checkZeroRange
  exact checkZeroRangeAux_flip l i v hv hil (hi - lo) lo hlo (by omega)
    (fun j hj hji => hz j hj (by omega))

theorem mkBase_ne (length : Nat) (data : List Nat) (h : length ≠ data.length) :
    mkBase length data = .error .truncatedPayload := by
  rw [mkBase, if_neg h]

theorem mkBase_eq (length : Nat) (data : List Nat) (h : length = data.length) :
    mkBase length data = .ok () := by
  rw [mkBase, if_pos h]

theorem base_decode_ok {α : Type} (length : Nat) (data : List Nat)
    (body : Except DecodeError α) (f : α → CmsBlock) (blk : CmsBlock)
    (he : (mkBase length data >>= fun _ => body.map f) = .ok blk) :
    length = data.length ∧ ∃ a, body = .ok a ∧ blk = f a := by
  by_cases h : length = data.length
  · rw [mkBase_eq length data h, ok_bind] at he
    cases hb : body with
    | ok a =>
      rw [hb, map_ok] at he
      exact ⟨h, a, rfl, (Except.ok.inj he).symm⟩
    | error e =>
      rw [hb, map_error] at he
      exact absurd he (by simp)
  · rw [mkBase_ne length data h, error_bind] at he
    exact absurd he (by simp)

theorem base_decode_mismatch {α : Type} (length : Nat) (data : List Nat)
    (body : Except DecodeError α) (f : α → CmsBlock) (h : length ≠ data.length) :
    (mkBase length data >>= fun _ => body.map f) = .error .truncatedPayload := by
  rw [mkBase_ne length data h, error_bind]

/-- Every branch of the dispatcher starts with the base-class length check. -/
theorem getBlock_mismatch (length block_type : Nat) (data : List Nat)
    (h : length ≠ data.length) :
    getBlock length block_type data = .error .truncatedPayload := by
  unfold getBlock decode3E decode43 decode45 decode46 decode47 decode49
  repeat' split
  · exact base_decode_mismatch length data _ _ h
  · exact base_decode_mismatch length data _ _ h
  · exact base_decode_mismatch length data _ _ h
  · exact base_decode_mismatch length data _ _ h
  · exact base_decode_mismatch length data _ _ h
  · exact base_decode_mismatch length data _ _ h
  · rw [mkBase_ne length data h, error_bind]

/-- A successfully decoded block keeps the declared length and the very
payload bytes, and the two agree. -/
theorem getBlock_ok_base (length block_type : Nat) (data : List Nat) (blk : CmsBlock)
    (he : getBlock length block_type data = .ok blk) :
    length = data.length ∧ blk.len = length ∧ blk.pdata = data := by
  by_cases h : length = data.length
  · refine ⟨h, ?_⟩
    unfold getBlock decode3E decode43 decode45 decode46 decode47 decode49 at he
    repeat' split at he
    · obtain ⟨-, a, -, rfl⟩ := base_decode_ok length data _ _ blk he
      exact ⟨rfl, rfl⟩
    · obtain ⟨-, a, -, rfl⟩ := base_decode_ok length data _ _ blk he
      exact ⟨rfl, rfl⟩
    · obtain ⟨-, a, -, rfl⟩ := base_decode_ok length data _ _ blk he
      exact ⟨rfl, rfl⟩
    · obtain ⟨-, a, -, rfl⟩ := base_decode_ok length data _ _ blk he
      exact ⟨rfl, rfl⟩
    · obtain ⟨-, a, -, rfl⟩ := base_decode_ok length data _ _ blk he
      exact ⟨rfl, rfl⟩
    · obtain ⟨-, a, -, rfl⟩ := base_decode_ok length data _ _ blk he
      exact ⟨rfl, rfl⟩
    · rw [mkBase_eq length data h, ok_bind] at he
      rw [← Except.ok.inj he]
      exact ⟨rfl, rfl⟩
  · rw [getBlock_mismatch length block_type data h] at he
    exact absurd he (by simp)

theorem pySlice_len (l : List Nat) (a b : Nat) :
    (pySlice l a b).length = min b l.length - a := by
  simp [pySlice]

theorem unpack2_pair (a b : Nat) : unpack2 [a, b] = .ok (a, b) := rfl

theorem unpack2_ok_inv (l : List Nat) (p : Nat × Nat) (h : unpack2 l = .ok p) :
    l = [p.1, p.2] := by
  unfold unpack2 at h
  split at h
  · next hlen =>
    match l, hlen with
    | [x, y], _ =>
      rw [← Except.ok.inj h]
      rfl
  · exact absurd h (by simp)

/-- Claim C1: reading one frame from a byte buffer decodes the first two
bytes as the little-endian declared length and fails with shortFrame when it
is below 2; decodes the following magic and type bytes and fails with
badMagic when the magic is not 0x05; fails with truncatedPayload when fewer
than declared-length-minus-2 payload bytes are available; and on success the
decoded block carries a payload of exactly declared-length-minus-2 bytes. -/
theorem frame_read_laws (data : List Nat) (offset : Nat) :
    (∀ b0 b1, pySlice data offset (offset + 2) = [b0, b1] → b0 + 256 * b1 < 2 →
      cms_read_block_from_bytes data offset = .error .shortFrame) ∧
    (∀ b0 b1 hdr bt, pySlice data offset (offset + 2) = [b0, b1] →
      2 ≤ b0 + 256 * b1 → pySlice data (offset + 2) (offset + 4) = [hdr, bt] →
      hdr ≠ 0x05 → cms_read_block_from_bytes data offset = .error .badMagic) ∧
    (∀ b0 b1 bt, pySlice data offset (offset + 2) = [b0, b1] →
      2 ≤ b0 + 256 * b1 → pySlice data (offset + 2) (offset + 4) = [0x05, bt] →
      data.length < offset + 4 + (b0 + 256 * b1 - 2) →
      cms_read_block_from_bytes data offset = .error .truncatedPayload) ∧
    (∀ blk, cms_read_block_from_bytes data offset = .ok blk →
      ∃ b0 b1 bt, pySlice data offset (offset + 2) = [b0, b1] ∧
        2 ≤ b0 + 256 * b1 ∧
        pySlice data (offset + 2) (offset + 4) = [0x05, bt] ∧
        blk.pdata = pySlice data (offset + 4) (offset + 4 + (b0 + 256 * b1 - 2)) ∧
        blk.pdata.length = b0 + 256 * b1 - 2) := by
  refine ⟨?_, ?_, ?_, ?_⟩
  · intro b0 b1 hs hlt
    unfold cms_read_block_from_bytes
    rw [hs, unpack2_pair, ok_bind, if_pos hlt]
  · intro b0 b1 hdr bt hs hge hs2 hhdr
    unfold cms_read_block_from_bytes
    rw [hs, unpack2_pair, ok_bind, if_neg (by omega), hs2, unpack2_pair, ok_bind,
        if_neg hhdr]
  · intro b0 b1 bt hs hge hs2 hshort
    have h4 : offset + 4 ≤ data.length := by
      have hl := congrArg List.length hs2
      rw [pySlice_len] at hl
      simp at hl
      omega
    unfold cms_read_block_from_bytes
    rw [hs, unpack2_pair, ok_bind, if_neg (by omega), hs2, unpack2_pair, ok_bind,
        if_pos rfl]
    apply getBlock_mismatch
    rw [pySlice_len]
    omega
  · intro blk hok
    unfold cms_read_block_from_bytes at hok
    cases h1 : unpack2 (pySlice data offset (offset + 2)) with
    | error e =>
      rw [h1, error_bind] at hok
      exact absurd hok (by simp)
    | ok p =>
      rw [h1, ok_bind] at hok
      by_cases hlt : p.1 + 256 * p.2 < 2
      · rw [if_pos hlt] at hok
        exact absurd hok (by simp)
      · rw [if_neg hlt] at hok
        cases h2 : unpack2 (pySlice data (offset + 2) (offset + 4)) with
        | error e =>
          rw [h2, error_bind] at hok
          exact absurd hok (by simp)
        | ok q =>
          rw [h2, ok_bind] at hok
          by_cases hq : q.1 = 0x05
          · rw [if_pos hq] at hok
            obtain ⟨hlen2, -, hdata⟩ := getBlock_ok_base _ _ _ _ hok
            refine ⟨p.1, p.2, q.2, unpack2_ok_inv _ _ h1, by omega, ?_, ?_, ?_⟩
            · have := unpack2_ok_inv _ _ h2
              rw [hq] at this
              exact this
            · exact hdata
            · rw [hdata, ← hlen2]
          · rw [if_neg hq] at hok
            exact absurd hok (by simp)

/-- Witness for C1: each arm of the frame-reading law exercised on a
concrete buffer. -/
theorem frame_read_laws_witness :
    cms_read_block_from_bytes [0, 0] 0 = .error .shortFrame ∧
    cms_read_block_from_bytes [2, 0, 6, 7] 0 = .error .badMagic ∧
    cms_read_block_from_bytes [3, 0, 5, 7] 0 = .error .truncatedPayload ∧
    (∃ b0 b1 bt, pySlice [3, 0, 5, 7, 9] 0 2 = [b0, b1] ∧
      2 ≤ b0 + 256 * b1 ∧
      pySlice [3, 0, 5, 7, 9] 2 4 = [0x05, bt] ∧
      (CmsBlock.raw 1 7 [9]).pdata = pySlice [3, 0, 5, 7, 9] 4 (4 + (b0 + 256 * b1 - 2)) ∧
      (CmsBlock.raw 1 7 [9]).pdata.length = b0 + 256 * b1 - 2) :=
  ⟨(frame_read_laws [0, 0] 0).1 0 0 rfl (by decide),
   (frame_read_laws [2, 0, 6, 7] 0).2.1 2 0 6 7 rfl (by decide) rfl (by decide),
   (frame_read_laws [3, 0, 5, 7] 0).2.2.1 3 0 7 rfl (by decide) rfl (by decide),
   (frame_read_laws [3, 0, 5, 7, 9] 0).2.2.2 (CmsBlock.raw 1 7 [9]) rfl⟩

theorem optUtf8_some (l m : List Nat) (h : utf8Decode l = some m) :
    optUtf8 l = .ok m := by
  unfold optUtf8
  rw [h]

theorem pyIndex_some (l : List Nat) (i v : Nat) (h : l[i]? = some v) :
    pyIndex l i = .ok v := by
  unfold pyIndex
  rw [h]

theorem needLen_ok (l : List Nat) (n : Nat) (h : n ≤ l.length) :
    needLen l n = .ok () := by
  rw [needLen, if_pos h]

theorem checkZeroByte_zero (off : Nat) : checkZeroByte 0 off = .ok () := rfl

/-- Counterexample for C5: the scenario frame 06 00 05 49 2A 45 52 declares
a 4-byte payload but carries only 3 bytes, so decoding fails on the length
check instead of producing an error-notice block. -/
theorem scenario2_as_stated_fails :
    cms_read_block_from_bytes [0x06, 0x00, 0x05, 0x49, 0x2A, 0x45, 0x52] 0 =
      .error .truncatedPayload := rfl

/-- Claim C5 (amended): with declared length 5 the frame 05 00 05 49 2A 45 52
decodes to the error-notice block with code 0x2A and message ER. -/
theorem scenario2_amended_error_notice :
    cms_read_block_from_bytes [0x05, 0x00, 0x05, 0x49, 0x2A, 0x45, 0x52] 0 =
      .ok (.b49 3 [0x2A, 0x45, 0x52] 0x2A [0x45, 0x52]) := rfl

theorem body45_ok_iff (data : List Nat) (bed : Nat) :
    body45 data = .ok bed ↔ data = [0, 0, bed, 0xFF] := by
  constructor
  · intro hb
    rcases data with _ | ⟨a, _ | ⟨b, _ | ⟨c, _ | ⟨d, rest⟩⟩⟩⟩
    · simp [body45, guardE, error_bind, ok_bind] at hb
    · simp [body45, guardE, error_bind, ok_bind] at hb
    · simp [body45, guardE, error_bind, ok_bind] at hb
    · simp [body45, guardE, error_bind, ok_bind] at hb
    · rcases rest with _ | ⟨e, rest2⟩
      · by_cases ha : a = 0
        · by_cases hbb : b = 0
          · by_cases hd : d = 0xFF
            · subst ha
              subst hbb
              subst hd
              simp [body45, guardE, checkZeroByte, error_bind, ok_bind] at hb
              rw [hb]
            · simp [body45, guardE, checkZeroByte, ha, hbb, hd, error_bind, ok_bind] at hb
          · simp [body45, guardE, checkZeroByte, ha, hbb, error_bind, ok_bind] at hb
        · simp [body45, guardE, checkZeroByte, ha, error_bind, ok_bind] at hb
      · simp [body45, guardE, error_bind, ok_bind] at hb
  · rintro rfl
    rfl

/-- Claim C6: a 0x45 block decodes successfully exactly when its payload is
the four bytes 0, 0, bed, 0xFF and the declared length matches; the bed
number is byte 2; and the concrete scenario frame yields bed 7. -/
theorem bedassign_law (length : Nat) (data : List Nat) :
    ((∃ blk, decode45 length data = .ok blk) ↔
      (length = data.length ∧ ∃ bed, data = [0, 0, bed, 0xFF])) ∧
    (∀ bed, decode45 4 [0, 0, bed, 0xFF] = .ok (.b45 4 [0, 0, bed, 0xFF] bed)) ∧
    cms_read_block_from_bytes [0x06, 0x00, 0x05, 0x45, 0x00, 0x00, 0x07, 0xFF] 0 =
      .ok (.b45 4 [0, 0, 7, 0xFF] 7) := by
  have hpos : ∀ bed, decode45 4 [0, 0, bed, 0xFF] = .ok (.b45 4 [0, 0, bed, 0xFF] bed) := by
    intro bed
    unfold decode45
    rw [mkBase_eq 4 [0, 0, bed, 0xFF] (by simp), ok_bind,
        (body45_ok_iff [0, 0, bed, 0xFF] bed).mpr rfl, map_ok]
  refine ⟨⟨?_, ?_⟩, hpos, rfl⟩
  · rintro ⟨blk, hok⟩
    unfold decode45 at hok
    obtain ⟨hlen, bed, hbody, rfl⟩ := base_decode_ok length data (body45 data) _ blk hok
    exact ⟨hlen, bed, (body45_ok_iff data bed).mp hbody⟩
  · rintro ⟨hlen, bed, rfl⟩
    simp at hlen
    subst hlen
    exact ⟨_, hpos bed⟩

/-- Witness for C6 at bed 9. -/
theorem bedassign_law_witness :
    decode45 4 [0, 0, 9, 0xFF] = .ok (.b45 4 [0, 0, 9, 0xFF] 9) :=
  (bedassign_law 4 [0, 0, 9, 0xFF]).2.1 9

theorem optUtf8_none (l : List Nat) (h : utf8Decode l = none) :
    optUtf8 l = .error .malformedValue := by
  unfold optUtf8
  rw [h]

theorem body49_ok_inv (data : List Nat) (p : Nat × List Nat)
    (h : body49 data = .ok p) :
    data[0]? = some p.1 ∧ utf8Decode (data.drop 1) = some p.2 := by
  rcases data with _ | ⟨c, rest⟩
  · simp [body49, pyIndex, error_bind] at h
  · unfold body49 at h
    rw [pyIndex_some (c :: rest) 0 c (by simp), ok_bind] at h
    cases hu : utf8Decode ((c :: rest).drop 1) with
    | none =>
      rw [optUtf8_none _ hu, error_bind] at h
      exact absurd h (by simp)
    | some m =>
      rw [optUtf8_some _ m hu, ok_bind] at h
      have hp := Except.ok.inj h
      rw [← hp]
      exact ⟨by simp, by simp⟩

/-- Claim C9: a 0x49 error-notice block needs at least one payload byte;
byte 0 is the code and the decoded remainder is the message, empty for a
one-byte payload; the empty payload fails on the index of byte 0. -/
theorem errornotice_payload_law (length : Nat) (data : List Nat) :
    (decode49 0 [] = .error .outOfBounds) ∧
    (∀ blk, decode49 length data = .ok blk →
      1 ≤ data.length ∧
      ∃ code msg, blk = .b49 length data code msg ∧ data[0]? = some code ∧
        utf8Decode (data.drop 1) = some msg ∧ (data.length = 1 → msg = [])) ∧
    (∀ code msg, length = data.length → data[0]? = some code →
      utf8Decode (data.drop 1) = some msg →
      decode49 length data = .ok (.b49 length data code msg)) := by
  refine ⟨rfl, ?_, ?_⟩
  · intro blk hok
    unfold decode49 at hok
    obtain ⟨hlen, p, hbody, rfl⟩ := base_decode_ok length data (body49 data) _ blk hok
    obtain ⟨h0, hu⟩ := body49_ok_inv data p hbody
    have hlen1 : 1 ≤ data.length := by
      rcases data with _ | ⟨c, rest⟩
      · exact absurd h0 (by simp)
      · simp
    refine ⟨hlen1, p.1, p.2, rfl, h0, hu, ?_⟩
    intro h1
    rcases data with _ | ⟨c, rest⟩
    · simp at hlen1
    · simp at h1
      subst h1
      rw [show List.drop 1 [c] = ([] : List Nat) from rfl] at hu
      rw [show utf8Decode ([] : List Nat) = some [] from rfl] at hu
      exact (Option.some.inj hu).symm
  · intro code msg hlen h0 hu
    unfold decode49
    rw [mkBase_eq length data hlen, ok_bind]
    unfold body49
    rw [pyIndex_some data 0 code h0, ok_bind, optUtf8_some _ msg hu, ok_bind, map_ok]

/-- Witness for C9 on the one-byte payload 0x2A. -/
theorem errornotice_payload_law_witness :
    decode49 1 [0x2A] = .ok (.b49 1 [0x2A] 0x2A []) :=
  (errornotice_payload_law 1 [0x2A]).2.2 0x2A [] rfl rfl rfl

/-- Claim C4: an unrecognized block type decodes to the raw pass-through
block keeping the type code and the payload bytes; inside a 0x46 block whose
header passes the reserved checks, an unrecognized lead code decodes to the
record keeping the raw lead payload bytes. -/
theorem fallback_law (length block_type : Nat) (data : List Nat) :
    (block_type ≠ 0x3E → block_type ≠ 0x43 → block_type ≠ 0x45 → block_type ≠ 0x46 →
      block_type ≠ 0x47 → block_type ≠ 0x49 → length = data.length →
      getBlock length block_type data = .ok (.raw length block_type data)) ∧
    (length = data.length → 4 ≤ data.length →
      data.getD 0 0 = 0 → data.getD 1 0 = 0 → data.getD 3 0 = 0 →
      data.getD 2 0 ≠ 0x14 → data.getD 2 0 ≠ 0x15 → data.getD 2 0 ≠ 0x16 →
      data.getD 2 0 ≠ 0x17 →
      getBlock length 0x46 data =
        .ok (.b46 length data (data.getD 2 0) (.unk (data.drop 4)))) := by
  constructor
  · intro h3E h43 h45 h46 h47 h49 hlen
    unfold getBlock
    rw [if_neg h3E, if_neg h43, if_neg h45, if_neg h46, if_neg h47, if_neg h49,
        mkBase_eq length data hlen, ok_bind]
  · intro hlen h4 h0 h1 h3 h14 h15 h16 h17
    unfold getBlock
    rw [if_neg (by decide), if_neg (by decide), if_neg (by decide), if_pos rfl]
    unfold decode46
    rw [mkBase_eq length data hlen, ok_bind]
    unfold body46
    rw [needLen_ok data 4 h4, ok_bind, h0, checkZeroByte_zero, ok_bind,
        h1, checkZeroByte_zero, ok_bind, h3, checkZeroByte_zero, ok_bind,
        if_neg h14, if_neg h15, if_neg h16, if_neg h17, map_ok]

/-- Witness for C4: type 0x99 passes through raw; lead 0x20 passes through
inside a telemetry block. -/
theorem fallback_law_witness :
    getBlock 3 0x99 [1, 2, 3] = .ok (.raw 3 0x99 [1, 2, 3]) ∧
    getBlock 5 0x46 [0, 0, 0x20, 0, 7] =
      .ok (.b46 5 [0, 0, 0x20, 0, 7] 0x20 (.unk [7])) :=
  ⟨(fallback_law 3 0x99 [1, 2, 3]).1 (by decide) (by decide) (by decide) (by decide)
      (by decide) (by decide) rfl,
   (fallback_law 5 0x46 [0, 0, 0x20, 0, 7]).2 rfl (by decide) rfl rfl rfl
      (by decide) (by decide) (by decide) (by decide)⟩


theorem guardE_true {b : Bool} (e : DecodeError) (h : b = true) :
    guardE b e = .ok () := by
  rw [guardE, if_pos h]

theorem guardE_false {b : Bool} (e : DecodeError) (h : b = false) :
    guardE b e = .error e := by
  rw [guardE, if_neg (by simp [h])]

/-- Full inversion of a successful 0x3E body decode: every fallible step
succeeded with the value recorded in the result. -/
theorem body3E_ok_inv (data : List Nat) (r : PatientInfoR)
    (h : body3E data = .ok r) :
    pyDecodeField data 0x0 0x20 = .ok r.department ∧
    checkZeroAt data 0x20 = .ok () ∧
    checkZeroAt data 0x21 = .ok () ∧
    pyIndex data 0x22 = .ok r.bed ∧
    pyDecodeField data 0x23 0x43 = .ok r.patient_name ∧
    pyDecodeField data 0x43 0x63 = .ok r.patient_number ∧
    pyIntField data 0x63 0x68 = .ok r.admit_year ∧
    pyIntField data 0x68 0x6B = .ok r.admit_month ∧
    pyIntField data 0x6B 0x6E = .ok r.admit_day ∧
    pyDateValid r.admit_year r.admit_month r.admit_day = true ∧
    checkZeroRange data 0x6E 0x74 = .ok () ∧
    0x78 ≤ data.length ∧
    r.height_m = (u16at data 0x74 : ℚ) / 1000 ∧
    r.weight_kg = (u16at data 0x76 : ℚ) / 10 ∧
    r.unk_78 = pySlice data 0x78 0x7C ∧
    pyIntField data 0x7C 0x81 = .ok r.birth_year ∧
    pyIntField data 0x81 0x84 = .ok r.birth_month ∧
    pyIntField data 0x84 0x87 = .ok r.birth_day ∧
    pyDateValid r.birth_year r.birth_month r.birth_day = true ∧
    checkZeroRange data 0x87 0x8B = .ok () ∧
    pyIndex data 0x8C = .ok r.blood_type ∧
    pyDecodeField data 0x8D 0xAD = .ok r.doctor_name ∧
    checkZeroFrom data 0xAD = .ok () := by
  unfold body3E at h
  cases h1 : pyDecodeField data 0x0 0x20 with
  | error e => rw [h1, error_bind] at h; exact absurd h (by simp)
  | ok department =>
  rw [h1, ok_bind] at h
  cases h2 : checkZeroAt data 0x20 with
  | error e => rw [h2, error_bind] at h; exact absurd h (by simp)
  | ok u2 =>
  rw [h2, ok_bind] at h
  cases h3 : checkZeroAt data 0x21 with
  | error e => rw [h3, error_bind] at h; exact absurd h (by simp)
  | ok u3 =>
  rw [h3, ok_bind] at h
  cases h4 : pyIndex data 0x22 with
  | error e => rw [h4, error_bind] at h; exact absurd h (by simp)
  | ok bed =>
  rw [h4, ok_bind] at h
  cases h5 : pyDecodeField data 0x23 0x43 with
  | error e => rw [h5, error_bind] at h; exact absurd h (by simp)
  | ok patient_name =>
  rw [h5, ok_bind] at h
  cases h6 : pyDecodeField data 0x43 0x63 with
  | error e => rw [h6, error_bind] at h; exact absurd h (by simp)
  | ok patient_number =>
  rw [h6, ok_bind] at h
  cases h7 : pyIntField data 0x63 0x68 with
  | error e => rw [h7, error_bind] at h; exact absurd h (by simp)
  | ok admit_year =>
  rw [h7, ok_bind] at h
  cases h8 : pyIntField data 0x68 0x6B with
  | error e => rw [h8, error_bind] at h; exact absurd h (by simp)
  | ok admit_month =>
  rw [h8, ok_bind] at h
  cases h9 : pyIntField data 0x6B 0x6E with
  | error e => rw [h9, error_bind] at h; exact absurd h (by simp)
  | ok admit_day =>
  rw [h9, ok_bind] at h
  cases h10 : pyDateValid admit_year admit_month admit_day with
  | false => rw [guardE_false _ h10, error_bind] at h; exact absurd h (by simp)
  | true =>
  rw [guardE_true _ h10, ok_bind] at h
  cases h11 : checkZeroRange data 0x6E 0x74 with
  | error e => rw [h11, error_bind] at h; exact absurd h (by simp)
  | ok u11 =>
  rw [h11, ok_bind] at h
  by_cases h12 : 0x78 ≤ data.length
  case neg =>
    rw [needLen, if_neg h12, error_bind] at h
    exact absurd h (by simp)
  case pos =>
  rw [needLen_ok data 0x78 h12, ok_bind] at h
  cases h13 : pyIntField data 0x7C 0x81 with
  | error e => rw [h13, error_bind] at h; exact absurd h (by simp)
  | ok birth_year =>
  rw [h13, ok_bind] at h
  cases h14 : pyIntField data 0x81 0x84 with
  | error e => rw [h14, error_bind] at h; exact absurd h (by simp)
  | ok birth_month =>
  rw [h14, ok_bind] at h
  cases h15 : pyIntField data 0x84 0x87 with
  | error e => rw [h15, error_bind] at h; exact absurd h (by simp)
  | ok birth_day =>
  rw [h15, ok_bind] at h
  cases h16 : pyDateValid birth_year birth_month birth_day with
  | false => rw [guardE_false _ h16, error_bind] at h; exact absurd h (by simp)
  | true =>
  rw [guardE_true _ h16, ok_bind] at h
  cases h17 : checkZeroRange data 0x87 0x8B with
  | error e => rw [h17, error_bind] at h; exact absurd h (by simp)
  | ok u17 =>
  rw [h17, ok_bind] at h
  cases h18 : pyIndex data 0x8C with
  | error e => rw [h18, error_bind] at h; exact absurd h (by simp)
  | ok blood_type =>
  rw [h18, ok_bind] at h
  cases h19 : pyDecodeField data 0x8D 0xAD with
  | error e => rw [h19, error_bind] at h; exact absurd h (by simp)
  | ok doctor_name =>
  rw [h19, ok_bind] at h
  cases h20 : checkZeroFrom data 0xAD with
  | error e => rw [h20, error_bind] at h; exact absurd h (by simp)
  | ok u20 =>
  rw [h20, ok_bind] at h
  rw [← Except.ok.inj h]
  exact ⟨rfl, rfl, rfl, rfl, rfl, rfl, rfl, rfl, rfl, h10, rfl, h12, rfl, rfl,
         rfl, rfl, rfl, rfl, h16, rfl, rfl, rfl, rfl⟩

set_option maxRecDepth 8000 in
/-- The concrete payload good3E decodes to good3Erec (all steps evaluate;
the two rational fields are settled by arithmetic). -/
theorem good3E_decodes : decode3E 0xAD good3E = .ok (.b3E 0xAD good3E good3Erec) := by
  unfold decode3E
  rw [mkBase_eq 0xAD good3E (by decide), ok_bind]
  unfold body3E
  rw [show pyDecodeField good3E 0x0 0x20 = .ok [] from rfl, ok_bind,
      show checkZeroAt good3E 0x20 = .ok () from rfl, ok_bind,
      show checkZeroAt good3E 0x21 = .ok () from rfl, ok_bind,
      show pyIndex good3E 0x22 = .ok 0 from rfl, ok_bind,
      show pyDecodeField good3E 0x23 0x43 = .ok [] from rfl, ok_bind,
      show pyDecodeField good3E 0x43 0x63 = .ok [] from rfl, ok_bind,
      show pyIntField good3E 0x63 0x68 = .ok 2020 from rfl, ok_bind,
      show pyIntField good3E 0x68 0x6B = .ok 12 from rfl, ok_bind,
      show pyIntField good3E 0x6B 0x6E = .ok 1 from rfl, ok_bind,
      guardE_true DecodeError.badDate (show pyDateValid 2020 12 1 = true from by decide),
      ok_bind,
      show checkZeroRange good3E 0x6E 0x74 = .ok () from rfl, ok_bind,
      needLen_ok good3E 0x78 (by decide), ok_bind,
      show pyIntField good3E 0x7C 0x81 = .ok 1980 from rfl, ok_bind,
      show pyIntField good3E 0x81 0x84 = .ok 1 from rfl, ok_bind,
      show pyIntField good3E 0x84 0x87 = .ok 1 from rfl, ok_bind,
      guardE_true DecodeError.badDate (show pyDateValid 1980 1 1 = true from by decide),
      ok_bind,
      show checkZeroRange good3E 0x87 0x8B = .ok () from rfl, ok_bind,
      show pyIndex good3E 0x8C = .ok 0x41 from rfl, ok_bind,
      show pyDecodeField good3E 0x8D 0xAD = .ok [] from rfl, ok_bind,
      show checkZeroFrom good3E 0xAD = .ok () from rfl, ok_bind, map_ok]
  refine congrArg Except.ok (congrArg (CmsBlock.b3E 0xAD good3E) ?_)
  unfold good3Erec
  congr 1
  · rw [show u16at good3E 0x74 = 1700 from rfl]
    norm_num
  · rw [show u16at good3E 0x76 = 674 from rfl]
    norm_num

/-- Claim C7: a successfully decoded 0x3E payload carries height equal to
the u16 LE at offset 0x74 divided exactly by 1000 and weight equal to the
u16 LE at offset 0x76 divided exactly by 10 (scaled values modelled as exact
rationals). -/
theorem patientinfo_scaling (length : Nat) (data : List Nat) (blk : CmsBlock)
    (h : decode3E length data = .ok blk) :
    ∃ r, blk = .b3E length data r ∧
      r.height_m = (u16at data 0x74 : ℚ) / 1000 ∧
      r.weight_kg = (u16at data 0x76 : ℚ) / 10 := by
  unfold decode3E at h
  obtain ⟨hlen, r, hbody, rfl⟩ := base_decode_ok length data (body3E data) _ blk h
  obtain ⟨-, -, -, -, -, -, -, -, -, -, -, -, hh, hw, -, -, -, -, -, -, -, -, -⟩ :=
    body3E_ok_inv data r hbody
  exact ⟨r, rfl, hh, hw⟩

/-- Witness for C7 on the payload good3E. -/
theorem patientinfo_scaling_witness :
    ∃ r, (CmsBlock.b3E 0xAD good3E good3Erec) = .b3E 0xAD good3E r ∧
      r.height_m = (u16at good3E 0x74 : ℚ) / 1000 ∧
      r.weight_kg = (u16at good3E 0x76 : ℚ) / 10 :=
  patientinfo_scaling 0xAD good3E (.b3E 0xAD good3E good3Erec) good3E_decodes

set_option maxRecDepth 8000 in
/-- Claim C10: a successfully decoded 0x3E payload has calendar-valid admit
and birth dates parsed from the digit fields; the all-digit but invalid
month 013 in bad3E makes decoding fail with badDate. -/
theorem patientinfo_dates_calendar_valid (length : Nat) (data : List Nat)
    (blk : CmsBlock) :
    (decode3E length data = .ok blk →
      ∃ r, blk = .b3E length data r ∧
        pyIntField data 0x63 0x68 = .ok r.admit_year ∧
        pyIntField data 0x68 0x6B = .ok r.admit_month ∧
        pyIntField data 0x6B 0x6E = .ok r.admit_day ∧
        pyDateValid r.admit_year r.admit_month r.admit_day = true ∧
        pyIntField data 0x7C 0x81 = .ok r.birth_year ∧
        pyIntField data 0x81 0x84 = .ok r.birth_month ∧
        pyIntField data 0x84 0x87 = .ok r.birth_day ∧
        pyDateValid r.birth_year r.birth_month r.birth_day = true) ∧
    pyIntField bad3E 0x63 0x68 = .ok 2020 ∧
    pyIntField bad3E 0x68 0x6B = .ok 13 ∧
    pyIntField bad3E 0x6B 0x6E = .ok 1 ∧
    pyDateValid 2020 13 1 = false ∧
    decode3E 0x6E bad3E = .error .badDate := by
  refine ⟨?_, rfl, rfl, rfl, by decide, rfl⟩
  intro h
  unfold decode3E at h
  obtain ⟨hlen, r, hbody, rfl⟩ := base_decode_ok length data (body3E data) _ blk h
  obtain ⟨-, -, -, -, -, -, h7, h8, h9, h10, -, -, -, -, -, h13, h14, h15, h16,
    -, -, -, -⟩ := body3E_ok_inv data r hbody
  exact ⟨r, rfl, h7, h8, h9, h10, h13, h14, h15, h16⟩

/-- Witness for C10 on the payload good3E. -/
theorem patientinfo_dates_witness :
    ∃ r, (CmsBlock.b3E 0xAD good3E good3Erec) = .b3E 0xAD good3E r ∧
      pyIntField good3E 0x63 0x68 = .ok r.admit_year ∧
      pyIntField good3E 0x68 0x6B = .ok r.admit_month ∧
      pyIntField good3E 0x6B 0x6E = .ok r.admit_day ∧
      pyDateValid r.admit_year r.admit_month r.admit_day = true ∧
      pyIntField good3E 0x7C 0x81 = .ok r.birth_year ∧
      pyIntField good3E 0x81 0x84 = .ok r.birth_month ∧
      pyIntField good3E 0x84 0x87 = .ok r.birth_day ∧
      pyDateValid r.birth_year r.birth_month r.birth_day = true :=
  (patientinfo_dates_calendar_valid 0xAD good3E
    (.b3E 0xAD good3E good3Erec)).1 good3E_decodes

/-- Claim C8: the 0x3E decoder never reads payload byte 0x8B, so two
payloads of equal length differing only there produce identical decoded
value records, and the block decoder fails identically on both. -/
theorem patientinfo_8B_noninterference (length : Nat) (d1 d2 : List Nat)
    (hlen : d1.length = d2.length)
    (hag : ∀ j, j ≠ 0x8B → d1[j]? = d2[j]?) :
    body3E d1 = body3E d2 ∧
    (∀ e, decode3E length d1 = .error e ↔ decode3E length d2 = .error e) := by
  have hbody : body3E d1 = body3E d2 := by
    unfold body3E
    rw [pyDecodeField_congr 0x0 0x20 (fun j hj1 hj2 => hag j (by omega)),
        checkZeroAt_congr 0x20 (hag 0x20 (by omega)),
        checkZeroAt_congr 0x21 (hag 0x21 (by omega)),
        pyIndex_congr 0x22 (hag 0x22 (by omega)),
        pyDecodeField_congr 0x23 0x43 (fun j hj1 hj2 => hag j (by omega)),
        pyDecodeField_congr 0x43 0x63 (fun j hj1 hj2 => hag j (by omega)),
        pyIntField_congr 0x63 0x68 (fun j hj1 hj2 => hag j (by omega)),
        pyIntField_congr 0x68 0x6B (fun j hj1 hj2 => hag j (by omega)),
        pyIntField_congr 0x6B 0x6E (fun j hj1 hj2 => hag j (by omega)),
        checkZeroRange_congr 0x6E 0x74 hlen (fun j hj1 hj2 => hag j (by omega)),
        needLen_congr 0x78 hlen,
        u16at_congr 0x74 (hag 0x74 (by omega)) (hag 0x75 (by omega)),
        u16at_congr 0x76 (hag 0x76 (by omega)) (hag 0x77 (by omega)),
        pySlice_congr 0x78 0x7C (fun j hj1 hj2 => hag j (by omega)),
        pyIntField_congr 0x7C 0x81 (fun j hj1 hj2 => hag j (by omega)),
        pyIntField_congr 0x81 0x84 (fun j hj1 hj2 => hag j (by omega)),
        pyIntField_congr 0x84 0x87 (fun j hj1 hj2 => hag j (by omega)),
        checkZeroRange_congr 0x87 0x8B hlen (fun j hj1 hj2 => hag j (by omega)),
        pyIndex_congr 0x8C (hag 0x8C (by omega)),
        pyDecodeField_congr 0x8D 0xAD (fun j hj1 hj2 => hag j (by omega)),
        checkZeroFrom_congr 0xAD hlen (fun j hj => hag j (by omega))]
  refine ⟨hbody, ?_⟩
  intro e
  unfold decode3E
  rw [hbody, show mkBase length d1 = mkBase length d2 from by simp [mkBase, hlen]]
  cases hm : mkBase length d2 with
  | error e2 =>
    rw [error_bind, error_bind]
  | ok u =>
    rw [ok_bind, ok_bind]
    cases hb2 : body3E d2 with
    | error e2 =>
      rw [map_error, map_error]
    | ok r =>
      rw [map_ok, map_ok]
      constructor
      · intro h
        exact absurd h (by simp)
      · intro h
        exact absurd h (by simp)

/-- Witness for C8: good3E against itself with byte 0x8B raised to 9. -/
theorem patientinfo_8B_witness :
    body3E good3E = body3E (good3E.set 0x8B 9) ∧
    (∀ e, decode3E 0xAD good3E = .error e ↔
      decode3E 0xAD (good3E.set 0x8B 9) = .error e) :=
  patientinfo_8B_noninterference 0xAD good3E (good3E.set 0x8B 9)
    (by simp [List.length_set]) (fun j hj => (List.getElem?_set_ne (by omega)).symm)

set_option maxRecDepth 32000 in
/-- Counterexample for C2: in lead 0x14 the validity flag 255 with a value
byte of 42 (not 255) is accepted, decoding to an absent heart rate, where
the claim demands a failure. -/
theorem lead14_invalid_hr_value_accepted :
    p14.getD 0x384 0 = 42 ∧ p14.getD 0x385 0 = 255 ∧
    decodeLead14 p14 = .ok p14rec := ⟨rfl, rfl, rfl⟩

/-- Full inversion of a successful lead 0x14 decode. -/
theorem decodeLead14_ok_inv (data : List Nat) (r : Lead14R)
    (h : decodeLead14 data = .ok r) :
    0x3D3 ≤ data.length ∧
    (data.getD 0x385 0 = 0 ∨ data.getD 0x385 0 = 255) ∧
    (data.getD 0x387 0 = 0 ∨ data.getD 0x387 0 = 255) ∧
    checkZeroFrom data 0x3D3 = .ok () ∧
    r = ⟨pySlice data 0x4 0x104, pySlice data 0x104 0x204, pySlice data 0x204 0x304,
         pySlice data 0x304 0x384,
         if data.getD 0x385 0 == 0 then some (data.getD 0x384 0) else none,
         data.getD 0x385 0 == 0,
         if data.getD 0x387 0 == 0 then some (data.getD 0x386 0) else none,
         data.getD 0x387 0 == 0,
         pySlice data 0x388 0x394,
         u16at data 0x3A3, u16at data 0x3A5, u16at data 0x3A7,
         u16at data 0x3A9, u16at data 0x3AB, u16at data 0x3AD,
         pySlice data 0x394 0x3A3, pySlice data 0x3AF 0x3CD,
         u16at data 0x3CD, u16at data 0x3CF, u16at data 0x3D1⟩ := by
  simp only [decodeLead14] at h
  by_cases hl1 : 0x388 ≤ data.length
  case neg => rw [needLen, if_neg hl1, error_bind] at h; exact absurd h (by simp)
  rw [needLen_ok data 0x388 hl1, ok_bind] at h
  cases hg1 : (data.getD 0x385 0 == 0 || data.getD 0x385 0 == 255) with
  | false => rw [guardE_false _ hg1, error_bind] at h; exact absurd h (by simp)
  | true =>
  rw [guardE_true _ hg1, ok_bind] at h
  cases hg2 : (data.getD 0x387 0 == 0 || data.getD 0x387 0 == 255) with
  | false => rw [guardE_false _ hg2, error_bind] at h; exact absurd h (by simp)
  | true =>
  rw [guardE_true _ hg2, ok_bind] at h
  by_cases hl2 : 0x394 ≤ data.length
  case neg => rw [needLen, if_neg hl2, error_bind] at h; exact absurd h (by simp)
  rw [needLen_ok data 0x394 hl2, ok_bind] at h
  by_cases hl3 : 0x3AF ≤ data.length
  case neg => rw [needLen, if_neg hl3, error_bind] at h; exact absurd h (by simp)
  rw [needLen_ok data 0x3AF hl3, ok_bind] at h
  by_cases hl4 : 0x3CD ≤ data.length
  case neg => rw [needLen, if_neg hl4, error_bind] at h; exact absurd h (by simp)
  rw [needLen_ok data 0x3CD hl4, ok_bind] at h
  by_cases hl5 : 0x3D3 ≤ data.length
  case neg => rw [needLen, if_neg hl5, error_bind] at h; exact absurd h (by simp)
  rw [needLen_ok data 0x3D3 hl5, ok_bind] at h
  cases hz : checkZeroFrom data 0x3D3 with
  | error e => rw [hz, error_bind] at h; exact absurd h (by simp)
  | ok u =>
  rw [hz, ok_bind] at h
  refine ⟨hl5, ?_, ?_, rfl, (Except.ok.inj h).symm⟩
  · rcases Bool.or_eq_true_iff.mp hg1 with hb | hb
    · exact Or.inl (eq_of_beq hb)
    · exact Or.inr (eq_of_beq hb)
  · rcases Bool.or_eq_true_iff.mp hg2 with hb | hb
    · exact Or.inl (eq_of_beq hb)
    · exact Or.inr (eq_of_beq hb)

/-- Full inversion of a successful lead 0x15 decode. -/
theorem decodeLead15_ok_inv (data : List Nat) (r : Lead15R)
    (h : decodeLead15 data = .ok r) :
    0x114 ≤ data.length ∧
    (data.getD 0x105 0 = 0 ∨ data.getD 0x105 0 = 255) ∧
    (data.getD 0x107 0 = 0 ∨ data.getD 0x107 0 = 255) ∧
    (data.getD 0x107 0 = 255 → data.getD 0x104 0 = 255 ∧ data.getD 0x106 0 = 255) ∧
    checkZeroFrom data 0x114 = .ok () ∧
    r = ⟨pySlice data 0x4 0x104,
         if data.getD 0x107 0 == 0 then some (data.getD 0x104 0) else none,
         data.getD 0x105 0 == 0,
         if data.getD 0x107 0 == 0 then some (data.getD 0x106 0) else none,
         data.getD 0x107 0 == 0,
         u16at data 0x10A, u16at data 0x108, u16at data 0x10C,
         u16at data 0x110, u16at data 0x10E, u16at data 0x112⟩ := by
  simp only [decodeLead15] at h
  by_cases hl1 : 0x108 ≤ data.length
  case neg => rw [needLen, if_neg hl1, error_bind] at h; exact absurd h (by simp)
  rw [needLen_ok data 0x108 hl1, ok_bind] at h
  cases hg1 : (data.getD 0x105 0 == 0 || data.getD 0x105 0 == 255) with
  | false => rw [guardE_false _ hg1, error_bind] at h; exact absurd h (by simp)
  | true =>
  rw [guardE_true _ hg1, ok_bind] at h
  cases hg2 : (data.getD 0x107 0 == 0 || data.getD 0x107 0 == 255) with
  | false => rw [guardE_false _ hg2, error_bind] at h; exact absurd h (by simp)
  | true =>
  rw [guardE_true _ hg2, ok_bind] at h
  cases hg3 : (data.getD 0x107 0 == 0 ||
      (data.getD 0x104 0 == 255 && data.getD 0x106 0 == 255)) with
  | false => rw [guardE_false _ hg3, error_bind] at h; exact absurd h (by simp)
  | true =>
  rw [guardE_true _ hg3, ok_bind] at h
  by_cases hl2 : 0x114 ≤ data.length
  case neg => rw [needLen, if_neg hl2, error_bind] at h; exact absurd h (by simp)
  rw [needLen_ok data 0x114 hl2, ok_bind] at h
  cases hz : checkZeroFrom data 0x114 with
  | error e => rw [hz, error_bind] at h; exact absurd h (by simp)
  | ok u =>
  rw [hz, ok_bind] at h
  refine ⟨hl2, ?_, ?_, ?_, rfl, (Except.ok.inj h).symm⟩
  · rcases Bool.or_eq_true_iff.mp hg1 with hb | hb
    · exact Or.inl (eq_of_beq hb)
    · exact Or.inr (eq_of_beq hb)
  · rcases Bool.or_eq_true_iff.mp hg2 with hb | hb
    · exact Or.inl (eq_of_beq hb)
    · exact Or.inr (eq_of_beq hb)
  · intro h255
    rcases Bool.or_eq_true_iff.mp hg3 with hb | hb
    · exact absurd (eq_of_beq hb) (by omega)
    · obtain ⟨hb1, hb2⟩ := Bool.and_eq_true_iff.mp hb
      exact ⟨eq_of_beq hb1, eq_of_beq hb2⟩

theorem flagBool_false {a : Nat} (h0 : a ≠ 0) (h255 : a ≠ 255) :
    (a == 0 || a == 255) = false := by
  refine Bool.eq_false_iff.mpr (fun hb => ?_)
  rcases Bool.or_eq_true_iff.mp hb with hx | hx
  · exact h0 (eq_of_beq hx)
  · exact h255 (eq_of_beq hx)

theorem flagBool_true {a : Nat} (h : a = 0 ∨ a = 255) :
    (a == 0 || a == 255) = true := by
  rcases h with hb | hb <;> rw [hb] <;> decide

/-- Claim C2 (amended): in both telemetry lead decoders a validity flag of 0
decodes the paired value as present and a flag outside the set 0 or 255
fails with badSentinel; a flag of 255 decodes the logical field as absent,
and only lead 0x15 additionally requires both value bytes (SpO2 and SpO2
heart rate) to equal 255 in that case, failing otherwise — lead 0x14
performs no value-byte check. -/
theorem sentinel_law_amended (data : List Nat) :
    (0x388 ≤ data.length → data.getD 0x385 0 ≠ 0 → data.getD 0x385 0 ≠ 255 →
      decodeLead14 data = .error .badSentinel) ∧
    (0x388 ≤ data.length → (data.getD 0x385 0 = 0 ∨ data.getD 0x385 0 = 255) →
      data.getD 0x387 0 ≠ 0 → data.getD 0x387 0 ≠ 255 →
      decodeLead14 data = .error .badSentinel) ∧
    (∀ r, decodeLead14 data = .ok r →
      (data.getD 0x385 0 = 0 → r.hr = some (data.getD 0x384 0) ∧ r.hr_valid = true) ∧
      (data.getD 0x385 0 = 255 → r.hr = none ∧ r.hr_valid = false) ∧
      (data.getD 0x387 0 = 0 → r.resp = some (data.getD 0x386 0) ∧
        r.resp_valid = true) ∧
      (data.getD 0x387 0 = 255 → r.resp = none ∧ r.resp_valid = false)) ∧
    (0x108 ≤ data.length → data.getD 0x105 0 ≠ 0 → data.getD 0x105 0 ≠ 255 →
      decodeLead15 data = .error .badSentinel) ∧
    (0x108 ≤ data.length → (data.getD 0x105 0 = 0 ∨ data.getD 0x105 0 = 255) →
      data.getD 0x107 0 ≠ 0 → data.getD 0x107 0 ≠ 255 →
      decodeLead15 data = .error .badSentinel) ∧
    (0x108 ≤ data.length → (data.getD 0x105 0 = 0 ∨ data.getD 0x105 0 = 255) →
      data.getD 0x107 0 = 255 →
      ¬(data.getD 0x104 0 = 255 ∧ data.getD 0x106 0 = 255) →
      decodeLead15 data = .error .badSentinel) ∧
    (∀ r, decodeLead15 data = .ok r →
      (data.getD 0x107 0 = 0 → r.spo2 = some (data.getD 0x104 0) ∧
        r.spo2_hr = some (data.getD 0x106 0) ∧ r.spo2_valid = true) ∧
      (data.getD 0x107 0 = 255 → r.spo2 = none ∧ r.spo2_hr = none ∧
        r.spo2_valid = false ∧ data.getD 0x104 0 = 255 ∧
        data.getD 0x106 0 = 255)) := by
  refine ⟨?_, ?_, ?_, ?_, ?_, ?_, ?_⟩
  · intro hlen h0 h255
    simp only [decodeLead14, needLen_ok data 0x388 hlen, ok_bind,
      guardE_false DecodeError.badSentinel (flagBool_false h0 h255), error_bind]
  · intro hlen hf1 h0 h255
    simp only [decodeLead14, needLen_ok data 0x388 hlen, ok_bind,
      guardE_true DecodeError.badSentinel (flagBool_true hf1), ok_bind,
      guardE_false DecodeError.badSentinel (flagBool_false h0 h255), error_bind]
  · intro r hok
    obtain ⟨-, -, -, -, rfl⟩ := decodeLead14_ok_inv data r hok
    refine ⟨?_, ?_, ?_, ?_⟩ <;> intro hfv <;> rw [hfv] <;> exact ⟨by simp, by simp⟩
  · intro hlen h0 h255
    simp only [decodeLead15, needLen_ok data 0x108 hlen, ok_bind,
      guardE_false DecodeError.badSentinel (flagBool_false h0 h255), error_bind]
  · intro hlen hf1 h0 h255
    simp only [decodeLead15, needLen_ok data 0x108 hlen, ok_bind,
      guardE_true DecodeError.badSentinel (flagBool_true hf1), ok_bind,
      guardE_false DecodeError.badSentinel (flagBool_false h0 h255), error_bind]
  · intro hlen hf1 h255 hnv
    have hg3 : (data.getD 0x107 0 == 0 ||
        (data.getD 0x104 0 == 255 && data.getD 0x106 0 == 255)) = false := by
      refine Bool.eq_false_iff.mpr (fun hb => ?_)
      rcases Bool.or_eq_true_iff.mp hb with hx | hx
      · rw [h255] at hx
        exact absurd (eq_of_beq hx) (by omega)
      · obtain ⟨hx1, hx2⟩ := Bool.and_eq_true_iff.mp hx
        exact hnv ⟨eq_of_beq hx1, eq_of_beq hx2⟩
    simp only [decodeLead15, needLen_ok data 0x108 hlen, ok_bind,
      guardE_true DecodeError.badSentinel (flagBool_true hf1), ok_bind,
      guardE_true DecodeError.badSentinel (flagBool_true (Or.inr h255)), ok_bind,
      guardE_false DecodeError.badSentinel hg3, error_bind]
  · intro r hok
    obtain ⟨-, -, -, hv255, -, rfl⟩ := decodeLead15_ok_inv data r hok
    constructor
    · intro hfv
      rw [hfv]
      exact ⟨by simp, by simp, by simp⟩
    · intro hfv
      obtain ⟨ha, hb⟩ := hv255 hfv
      rw [hfv]
      exact ⟨by simp, by simp, by simp, ha, hb⟩

set_option maxRecDepth 32000 in
/-- Witness for C2 (amended): the payload p14 exercises the flag-0 and
flag-255 arms of the lead 0x14 sentinel rule. -/
theorem sentinel_law_amended_witness :
    (p14rec.hr = none ∧ p14rec.hr_valid = false) ∧
    (p14rec.resp = some (p14.getD 0x386 0) ∧ p14rec.resp_valid = true) :=
  ⟨((sentinel_law_amended p14).2.2.1 p14rec rfl).2.1 rfl,
   ((sentinel_law_amended p14).2.2.1 p14rec rfl).2.2.1 rfl⟩

theorem checkZeroAt_ok_inv (l : List Nat) (i : Nat) (h : checkZeroAt l i = .ok ()) :
    i < l.length ∧ l.getD i 0 = 0 := by
  unfold checkZeroAt at h
  by_cases hl : i < l.length
  · rw [if_pos hl] at h
    by_cases hz : l.getD i 0 = 0
    · exact ⟨hl, hz⟩
    · rw [if_neg hz] at h
      exact absurd h (by simp)
  · rw [if_neg hl] at h
    exact absurd h (by simp)

theorem checkZeroAt_set_self (l : List Nat) (i b : Nat) (hi : i < l.length)
    (hb : b ≠ 0) :
    checkZeroAt (l.set i b) i = .error (.reservedNonZero i) := by
  unfold checkZeroAt
  rw [if_pos (by rw [List.length_set]; exact hi), getD_set_self l i b hi,
      if_neg hb]

theorem checkZeroByte_ok_inv (v off : Nat) (h : checkZeroByte v off = .ok ()) :
    v = 0 := by
  by_cases hv : v = 0
  · exact hv
  · rw [checkZeroByte, if_neg hv] at h
    exact absurd h (by simp)

theorem checkZeroByte_err (v off : Nat) (hv : v ≠ 0) :
    checkZeroByte v off = .error (.reservedNonZero off) := by
  rw [checkZeroByte, if_neg hv]

/-- Inversion of a successful lead 0x16 decode: the facts later proofs
need. -/
theorem decodeLead16_ok_inv (data : List Nat) (r : Lead16R)
    (h : decodeLead16 data = .ok r) :
    0x23 ≤ data.length ∧
    pyDatetimeValid (u16at data 0x4) (data.getD 0x6 0) (data.getD 0x7 0)
      (data.getD 0x8 0) (data.getD 0x9 0) (data.getD 0xA 0) = true ∧
    checkZeroFrom data 0x23 = .ok () := by
  simp only [decodeLead16] at h
  by_cases hl1 : 0x11 ≤ data.length
  case neg => rw [needLen, if_neg hl1, error_bind] at h; exact absurd h (by simp)
  rw [needLen_ok data 0x11 hl1, ok_bind] at h
  cases hg : pyDatetimeValid (u16at data 0x4) (data.getD 0x6 0) (data.getD 0x7 0)
      (data.getD 0x8 0) (data.getD 0x9 0) (data.getD 0xA 0) with
  | false => rw [guardE_false _ hg, error_bind] at h; exact absurd h (by simp)
  | true =>
  rw [guardE_true _ hg, ok_bind] at h
  by_cases hl2 : 0x23 ≤ data.length
  case neg => rw [needLen, if_neg hl2, error_bind] at h; exact absurd h (by simp)
  rw [needLen_ok data 0x23 hl2, ok_bind] at h
  cases hz : checkZeroFrom data 0x23 with
  | error e => rw [hz, error_bind] at h; exact absurd h (by simp)
  | ok u => exact ⟨hl2, rfl, rfl⟩

/-- Inversion of a successful lead 0x17 decode. -/
theorem decodeLead17_ok_inv (data : List Nat) (r : Lead17R)
    (h : decodeLead17 data = .ok r) :
    0x2E ≤ data.length ∧ checkZeroFrom data 0x2E = .ok () := by
  simp only [decodeLead17] at h
  by_cases hl1 : 0x2E ≤ data.length
  case neg => rw [needLen, if_neg hl1, error_bind] at h; exact absurd h (by simp)
  rw [needLen_ok data 0x2E hl1, ok_bind] at h
  cases hz : checkZeroFrom data 0x2E with
  | error e => rw [hz, error_bind] at h; exact absurd h (by simp)
  | ok u => exact ⟨hl1, rfl⟩

/-- Setting a nonzero byte in the trailing reserved range of a decodable
lead 0x14 payload makes the lead decoder fail with that offset. -/
theorem decodeLead14_flip (data : List Nat) (i b : Nat) (hIlo : 0x3D3 ≤ i)
    (hi : i < data.length) (hb : b ≠ 0) (r : Lead14R)
    (hok : decodeLead14 data = .ok r) :
    decodeLead14 (data.set i b) = .error (.reservedNonZero i) := by
  obtain ⟨hlen, hf1, hf2, hz, -⟩ := decodeLead14_ok_inv data r hok
  have hzf := (checkZeroFrom_ok_iff data 0x3D3).mp hz
  simp only [decodeLead14, needLen_set,
    pySlice_set_of_le data i b 0x4 0x104 (by omega),
    pySlice_set_of_le data i b 0x104 0x204 (by omega),
    pySlice_set_of_le data i b 0x204 0x304 (by omega),
    pySlice_set_of_le data i b 0x304 0x384 (by omega),
    pySlice_set_of_le data i b 0x388 0x394 (by omega),
    pySlice_set_of_le data i b 0x394 0x3A3 (by omega),
    pySlice_set_of_le data i b 0x3AF 0x3CD (by omega),
    getD_set_ne data i b 0x384 (by omega), getD_set_ne data i b 0x385 (by omega),
    getD_set_ne data i b 0x386 (by omega), getD_set_ne data i b 0x387 (by omega),
    u16at_set_of_le data i b 0x3A3 (by omega),
    u16at_set_of_le data i b 0x3A5 (by omega),
    u16at_set_of_le data i b 0x3A7 (by omega),
    u16at_set_of_le data i b 0x3A9 (by omega),
    u16at_set_of_le data i b 0x3AB (by omega),
    u16at_set_of_le data i b 0x3AD (by omega),
    u16at_set_of_le data i b 0x3CD (by omega),
    u16at_set_of_le data i b 0x3CF (by omega),
    u16at_set_of_le data i b 0x3D1 (by omega),
    needLen_ok data 0x388 (by omega), ok_bind,
    guardE_true DecodeError.badSentinel (flagBool_true hf1),
    guardE_true DecodeError.badSentinel (flagBool_true hf2),
    needLen_ok data 0x394 (by omega), needLen_ok data 0x3AF (by omega),
    needLen_ok data 0x3CD (by omega), needLen_ok data 0x3D3 (by omega),
    checkZeroFrom_flip data i b 0x3D3 hb hi hIlo
      (fun j hj1 hj2 => hzf j hj1 (by omega)),
    error_bind]

/-- Same for lead 0x15 past offset 0x114. -/
theorem decodeLead15_flip (data : List Nat) (i b : Nat) (hIlo : 0x114 ≤ i)
    (hi : i < data.length) (hb : b ≠ 0) (r : Lead15R)
    (hok : decodeLead15 data = .ok r) :
    decodeLead15 (data.set i b) = .error (.reservedNonZero i) := by
  obtain ⟨hlen, hf1, hf2, hv255, hz, -⟩ := decodeLead15_ok_inv data r hok
  have hzf := (checkZeroFrom_ok_iff data 0x114).mp hz
  have hg3 : (data.getD 0x107 0 == 0 ||
      (data.getD 0x104 0 == 255 && data.getD 0x106 0 == 255)) = true := by
    rcases hf2 with hf | hf
    · rw [hf]
      simp
    · obtain ⟨ha, hbb⟩ := hv255 hf
      rw [ha, hbb]
      simp
  simp only [decodeLead15, needLen_set,
    pySlice_set_of_le data i b 0x4 0x104 (by omega),
    getD_set_ne data i b 0x104 (by omega), getD_set_ne data i b 0x105 (by omega),
    getD_set_ne data i b 0x106 (by omega), getD_set_ne data i b 0x107 (by omega),
    u16at_set_of_le data i b 0x108 (by omega),
    u16at_set_of_le data i b 0x10A (by omega),
    u16at_set_of_le data i b 0x10C (by omega),
    u16at_set_of_le data i b 0x10E (by omega),
    u16at_set_of_le data i b 0x110 (by omega),
    u16at_set_of_le data i b 0x112 (by omega),
    needLen_ok data 0x108 (by omega), ok_bind,
    guardE_true DecodeError.badSentinel (flagBool_true hf1),
    guardE_true DecodeError.badSentinel (flagBool_true hf2),
    guardE_true DecodeError.badSentinel hg3,
    needLen_ok data 0x114 (by omega),
    checkZeroFrom_flip data i b 0x114 hb hi hIlo
      (fun j hj1 hj2 => hzf j hj1 (by omega)),
    error_bind]

/-- Same for lead 0x16 past offset 0x23. -/
theorem decodeLead16_flip (data : List Nat) (i b : Nat) (hIlo : 0x23 ≤ i)
    (hi : i < data.length) (hb : b ≠ 0) (r : Lead16R)
    (hok : decodeLead16 data = .ok r) :
    decodeLead16 (data.set i b) = .error (.reservedNonZero i) := by
  obtain ⟨hlen, hg, hz⟩ := decodeLead16_ok_inv data r hok
  have hzf := (checkZeroFrom_ok_iff data 0x23).mp hz
  simp only [decodeLead16, needLen_set,
    getD_set_ne data i b 0x6 (by omega), getD_set_ne data i b 0x7 (by omega),
    getD_set_ne data i b 0x8 (by omega), getD_set_ne data i b 0x9 (by omega),
    getD_set_ne data i b 0xA (by omega),
    u16at_set_of_le data i b 0x4 (by omega),
    u16at_set_of_le data i b 0xB (by omega),
    u16at_set_of_le data i b 0xD (by omega),
    u16at_set_of_le data i b 0xF (by omega),
    u16at_set_of_le data i b 0x11 (by omega),
    u16at_set_of_le data i b 0x13 (by omega),
    u16at_set_of_le data i b 0x15 (by omega),
    u16at_set_of_le data i b 0x17 (by omega),
    u16at_set_of_le data i b 0x19 (by omega),
    u16at_set_of_le data i b 0x1B (by omega),
    u16at_set_of_le data i b 0x1D (by omega),
    u16at_set_of_le data i b 0x1F (by omega),
    u16at_set_of_le data i b 0x21 (by omega),
    needLen_ok data 0x11 (by omega), ok_bind,
    guardE_true DecodeError.badDate hg,
    needLen_ok data 0x23 (by omega),
    checkZeroFrom_flip data i b 0x23 hb hi hIlo
      (fun j hj1 hj2 => hzf j hj1 (by omega)),
    error_bind]

/-- Same for lead 0x17 past offset 0x2E. -/
theorem decodeLead17_flip (data : List Nat) (i b : Nat) (hIlo : 0x2E ≤ i)
    (hi : i < data.length) (hb : b ≠ 0) (r : Lead17R)
    (hok : decodeLead17 data = .ok r) :
    decodeLead17 (data.set i b) = .error (.reservedNonZero i) := by
  obtain ⟨hlen, hz⟩ := decodeLead17_ok_inv data r hok
  have hzf := (checkZeroFrom_ok_iff data 0x2E).mp hz
  simp only [decodeLead17, needLen_set,
    pySlice_set_of_le data i b 0x4 0x8 (by omega),
    pySlice_set_of_le data i b 0x8 0xC (by omega),
    pySlice_set_of_le data i b 0xC 0x10 (by omega),
    pySlice_set_of_le data i b 0x10 0x14 (by omega),
    pySlice_set_of_le data i b 0x14 0x18 (by omega),
    pySlice_set_of_le data i b 0x1A 0x1E (by omega),
    pySlice_set_of_le data i b 0x1E 0x22 (by omega),
    pySlice_set_of_le data i b 0x24 0x28 (by omega),
    pySlice_set_of_le data i b 0x28 0x2C (by omega),
    u16at_set_of_le data i b 0x18 (by omega),
    u16at_set_of_le data i b 0x22 (by omega),
    u16at_set_of_le data i b 0x2C (by omega),
    needLen_ok data 0x2E (by omega), ok_bind,
    checkZeroFrom_flip data i b 0x2E hb hi hIlo
      (fun j hj1 hj2 => hzf j hj1 (by omega)),
    error_bind]

/-- Inversion of a successful telemetry body decode: the header reserved
bytes are zero and the selected lead branch succeeded. -/
theorem body46_ok_inv (data : List Nat) (p : Nat × LeadRecord)
    (h : body46 data = .ok p) :
    4 ≤ data.length ∧ data.getD 0 0 = 0 ∧ data.getD 1 0 = 0 ∧
    data.getD 3 0 = 0 ∧ p.1 = data.getD 2 0 ∧
    ((data.getD 2 0 = 0x14 ∧ ∃ r, decodeLead14 data = .ok r) ∨
     (data.getD 2 0 = 0x15 ∧ ∃ r, decodeLead15 data = .ok r) ∨
     (data.getD 2 0 = 0x16 ∧ ∃ r, decodeLead16 data = .ok r) ∨
     (data.getD 2 0 = 0x17 ∧ ∃ r, decodeLead17 data = .ok r) ∨
     (data.getD 2 0 ≠ 0x14 ∧ data.getD 2 0 ≠ 0x15 ∧ data.getD 2 0 ≠ 0x16 ∧
       data.getD 2 0 ≠ 0x17)) := by
  simp only [body46] at h
  by_cases hl : 4 ≤ data.length
  case neg => rw [needLen, if_neg hl, error_bind] at h; exact absurd h (by simp)
  rw [needLen_ok data 4 hl, ok_bind] at h
  by_cases h0 : data.getD 0 0 = 0
  case neg => rw [checkZeroByte_err _ 0 h0, error_bind] at h; exact absurd h (by simp)
  rw [h0, checkZeroByte_zero, ok_bind] at h
  by_cases h1 : data.getD 1 0 = 0
  case neg => rw [checkZeroByte_err _ 1 h1, error_bind] at h; exact absurd h (by simp)
  rw [h1, checkZeroByte_zero, ok_bind] at h
  by_cases h3 : data.getD 3 0 = 0
  case neg => rw [checkZeroByte_err _ 3 h3, error_bind] at h; exact absurd h (by simp)
  rw [h3, checkZeroByte_zero, ok_bind] at h
  refine ⟨hl, h0, h1, h3, ?_⟩
  by_cases h14 : data.getD 2 0 = 0x14
  · rw [if_pos h14] at h
    cases hd : decodeLead14 data with
    | error e => rw [hd, map_error] at h; exact absurd h (by simp)
    | ok r =>
      rw [hd, map_ok] at h
      rw [← Except.ok.inj h]
      exact ⟨rfl, Or.inl ⟨h14, r, rfl⟩⟩
  rw [if_neg h14] at h
  by_cases h15 : data.getD 2 0 = 0x15
  · rw [if_pos h15] at h
    cases hd : decodeLead15 data with
    | error e => rw [hd, map_error] at h; exact absurd h (by simp)
    | ok r =>
      rw [hd, map_ok] at h
      rw [← Except.ok.inj h]
      exact ⟨rfl, Or.inr (Or.inl ⟨h15, r, rfl⟩)⟩
  rw [if_neg h15] at h
  by_cases h16 : data.getD 2 0 = 0x16
  · rw [if_pos h16] at h
    cases hd : decodeLead16 data with
    | error e => rw [hd, map_error] at h; exact absurd h (by simp)
    | ok r =>
      rw [hd, map_ok] at h
      rw [← Except.ok.inj h]
      exact ⟨rfl, Or.inr (Or.inr (Or.inl ⟨h16, r, rfl⟩))⟩
  rw [if_neg h16] at h
  by_cases h17 : data.getD 2 0 = 0x17
  · rw [if_pos h17] at h
    cases hd : decodeLead17 data with
    | error e => rw [hd, map_error] at h; exact absurd h (by simp)
    | ok r =>
      rw [hd, map_ok] at h
      rw [← Except.ok.inj h]
      exact ⟨rfl, Or.inr (Or.inr (Or.inr (Or.inl ⟨h17, r, rfl⟩)))⟩
  rw [if_neg h17] at h
  rw [← Except.ok.inj h]
  exact ⟨rfl, Or.inr (Or.inr (Or.inr (Or.inr ⟨h14, h15, h16, h17⟩)))⟩

/-- Flipping one of the three reserved header bytes of a well-formed
telemetry payload fails with that offset. -/
theorem body46_flip_header (data : List Nat) (i b : Nat) (hl : 4 ≤ data.length)
    (h0 : data.getD 0 0 = 0) (h1 : data.getD 1 0 = 0)
    (hi3 : i = 0 ∨ i = 1 ∨ i = 3) (hb : b ≠ 0) :
    body46 (data.set i b) = .error (.reservedNonZero i) := by
  rcases hi3 with rfl | rfl | rfl
  · simp only [body46, needLen_set, needLen_ok data 4 hl, ok_bind,
      getD_set_self data 0 b (by omega), checkZeroByte_err b 0 hb, error_bind]
  · simp only [body46, needLen_set, needLen_ok data 4 hl, ok_bind,
      getD_set_ne data 1 b 0 (by omega), h0, checkZeroByte_zero,
      getD_set_self data 1 b (by omega), checkZeroByte_err b 1 hb, error_bind]
  · simp only [body46, needLen_set, needLen_ok data 4 hl, ok_bind,
      getD_set_ne data 3 b 0 (by omega), getD_set_ne data 3 b 1 (by omega),
      h0, h1, checkZeroByte_zero,
      getD_set_self data 3 b (by omega), checkZeroByte_err b 3 hb, error_bind]

/-- Flipping one of the two leading reserved bytes of a bed-assignment
payload fails with that offset. -/
theorem decode45_flip (bed i b : Nat) (hi : i = 0 ∨ i = 1) (hb : b ≠ 0) :
    decode45 ([0, 0, bed, 0xFF].set i b).length ([0, 0, bed, 0xFF].set i b) =
      .error (.reservedNonZero i) := by
  rcases hi with rfl | rfl
  · show decode45 4 [b, 0, bed, 0xFF] = .error (.reservedNonZero 0)
    unfold decode45
    rw [mkBase_eq 4 [b, 0, bed, 0xFF] (by simp), ok_bind]
    simp only [body45, guardE_true DecodeError.badLength
        (show ([b, 0, bed, 0xFF].length == 4) = true by simp), ok_bind,
      show ([b, 0, bed, 0xFF].getD 0 0) = b from rfl,
      checkZeroByte_err b 0 hb, error_bind, map_error]
  · show decode45 4 [0, b, bed, 0xFF] = .error (.reservedNonZero 1)
    unfold decode45
    rw [mkBase_eq 4 [0, b, bed, 0xFF] (by simp), ok_bind]
    simp only [body45, guardE_true DecodeError.badLength
        (show ([0, b, bed, 0xFF].length == 4) = true by simp), ok_bind,
      show ([0, b, bed, 0xFF].getD 0 0) = 0 from rfl, checkZeroByte_zero,
      show ([0, b, bed, 0xFF].getD 1 0) = b from rfl,
      checkZeroByte_err b 1 hb, error_bind, map_error]

/-- Flipping a byte in any reserved range of a decodable patient-info
payload makes the body decoder fail with that offset. -/
theorem body3E_flip (data : List Nat) (i b : Nat) (hb : b ≠ 0) (r : PatientInfoR)
    (hok : body3E data = .ok r)
    (hres : i = 0x20 ∨ i = 0x21 ∨ (0x6E ≤ i ∧ i < 0x74) ∨ (0x87 ≤ i ∧ i < 0x8B) ∨
      (0xAD ≤ i ∧ i < data.length)) :
    body3E (data.set i b) = .error (.reservedNonZero i) := by
  obtain ⟨hdep, hc20, hc21, hbed, hname, hnum, hay, ham, had, hdA, hr1, hlen78,
    -, -, -, hby, hbm, hbd, hdB, hr2, hblood, hdoc, hzf⟩ := body3E_ok_inv data r hok
  obtain ⟨hl20, -⟩ := checkZeroAt_ok_inv data 0x20 hc20
  obtain ⟨hl21, -⟩ := checkZeroAt_ok_inv data 0x21 hc21
  rcases hres with rfl | rfl | ⟨hlo, hhi⟩ | ⟨hlo, hhi⟩ | ⟨hlo, hhi⟩
  · simp only [body3E, pyDecodeField_set_of_le data 0x20 b 0x0 0x20 (by omega),
      hdep, ok_bind, checkZeroAt_set_self data 0x20 b hl20 hb, error_bind]
  · simp only [body3E, pyDecodeField_set_of_le data 0x21 b 0x0 0x20 (by omega),
      hdep, ok_bind, checkZeroAt_set_ne data 0x21 b 0x20 (by omega), hc20,
      checkZeroAt_set_self data 0x21 b hl21 hb, error_bind]
  · simp only [body3E, pyDecodeField_set_of_le data i b 0x0 0x20 (by omega),
      checkZeroAt_set_ne data i b 0x20 (by omega),
      checkZeroAt_set_ne data i b 0x21 (by omega),
      pyIndex_set_ne data i b 0x22 (by omega),
      pyDecodeField_set_of_le data i b 0x23 0x43 (by omega),
      pyDecodeField_set_of_le data i b 0x43 0x63 (by omega),
      pyIntField_set_of_le data i b 0x63 0x68 (by omega),
      pyIntField_set_of_le data i b 0x68 0x6B (by omega),
      pyIntField_set_of_le data i b 0x6B 0x6E (by omega),
      hdep, hc20, hc21, hbed, hname, hnum, hay, ham, had, ok_bind,
      guardE_true DecodeError.badDate hdA,
      checkZeroRange_flip data i b 0x6E 0x74 hb hlo hhi hr1, error_bind]
  · simp only [body3E, pyDecodeField_set_of_le data i b 0x0 0x20 (by omega),
      checkZeroAt_set_ne data i b 0x20 (by omega),
      checkZeroAt_set_ne data i b 0x21 (by omega),
      pyIndex_set_ne data i b 0x22 (by omega),
      pyDecodeField_set_of_le data i b 0x23 0x43 (by omega),
      pyDecodeField_set_of_le data i b 0x43 0x63 (by omega),
      pyIntField_set_of_le data i b 0x63 0x68 (by omega),
      pyIntField_set_of_le data i b 0x68 0x6B (by omega),
      pyIntField_set_of_le data i b 0x6B 0x6E (by omega),
      checkZeroRange_set_of_le data i b 0x6E 0x74 (by omega),
      needLen_set,
      u16at_set_of_le data i b 0x74 (by omega),
      u16at_set_of_le data i b 0x76 (by omega),
      pySlice_set_of_le data i b 0x78 0x7C (by omega),
      pyIntField_set_of_le data i b 0x7C 0x81 (by omega),
      pyIntField_set_of_le data i b 0x81 0x84 (by omega),
      pyIntField_set_of_le data i b 0x84 0x87 (by omega),
      hdep, hc20, hc21, hbed, hname, hnum, hay, ham, had, ok_bind,
      guardE_true DecodeError.badDate hdA, hr1,
      needLen_ok data 0x78 hlen78, hby, hbm, hbd,
      guardE_true DecodeError.badDate hdB,
      checkZeroRange_flip data i b 0x87 0x8B hb hlo hhi hr2, error_bind]
  · have hzeros := (checkZeroFrom_ok_iff data 0xAD).mp hzf
    simp only [body3E, pyDecodeField_set_of_le data i b 0x0 0x20 (by omega),
      checkZeroAt_set_ne data i b 0x20 (by omega),
      checkZeroAt_set_ne data i b 0x21 (by omega),
      pyIndex_set_ne data i b 0x22 (by omega),
      pyDecodeField_set_of_le data i b 0x23 0x43 (by omega),
      pyDecodeField_set_of_le data i b 0x43 0x63 (by omega),
      pyIntField_set_of_le data i b 0x63 0x68 (by omega),
      pyIntField_set_of_le data i b 0x68 0x6B (by omega),
      pyIntField_set_of_le data i b 0x6B 0x6E (by omega),
      checkZeroRange_set_of_le data i b 0x6E 0x74 (by omega),
      needLen_set,
      u16at_set_of_le data i b 0x74 (by omega),
      u16at_set_of_le data i b 0x76 (by omega),
      pySlice_set_of_le data i b 0x78 0x7C (by omega),
      pyIntField_set_of_le data i b 0x7C 0x81 (by omega),
      pyIntField_set_of_le data i b 0x81 0x84 (by omega),
      pyIntField_set_of_le data i b 0x84 0x87 (by omega),
      checkZeroRange_set_of_le data i b 0x87 0x8B (by omega),
      pyIndex_set_ne data i b 0x8C (by omega),
      pyDecodeField_set_of_le data i b 0x8D 0xAD (by omega),
      hdep, hc20, hc21, hbed, hname, hnum, hay, ham, had, ok_bind,
      guardE_true DecodeError.badDate hdA, hr1,
      needLen_ok data 0x78 hlen78, hby, hbm, hbd,
      guardE_true DecodeError.badDate hdB, hr2, hblood, hdoc,
      checkZeroFrom_flip data i b 0xAD hb hhi hlo
        (fun j hj1 hj2 => hzeros j hj1 (by omega)),
      error_bind]

/-- Claim C3: reserved-zero law. The zero checks pass on all-zero ranges;
a successful decode means every reserved offset holds zero; and raising one
reserved byte of a decodable payload to a nonzero value turns the decode
into reservedNonZero reporting exactly that (first offending) offset. -/
theorem reserved_zero_law (t : Nat) (data : List Nat) (i b : Nat) (blk : CmsBlock) :
    (∀ lo hi, (∀ j, lo ≤ j → j < hi → j < data.length ∧ data.getD j 0 = 0) →
      checkZeroRange data lo hi = .ok ()) ∧
    (∀ s, (∀ j, s ≤ j → j < data.length → data.getD j 0 = 0) →
      checkZeroFrom data s = .ok ()) ∧
    (getBlock data.length t data = .ok blk →
      (∀ j, reservedOff t data j → data.getD j 0 = 0) ∧
      (reservedOff t data i → b ≠ 0 →
        getBlock (data.set i b).length t (data.set i b) =
          .error (.reservedNonZero i))) := by
  refine ⟨fun lo hi h => (checkZeroRange_ok_iff data lo hi).mpr h,
          fun s h => (checkZeroFrom_ok_iff data s).mpr h, ?_⟩
  intro hok
  by_cases h3E : t = 0x3E
  · subst h3E
    unfold getBlock at hok
    rw [if_pos rfl] at hok
    unfold decode3E at hok
    obtain ⟨hlen, r, hbody, -⟩ := base_decode_ok data.length data (body3E data) _ blk hok
    obtain ⟨-, hc20, hc21, -, -, -, -, -, -, -, hr1, -, -, -, -, -, -, -, -,
      hr2, -, -, hzf⟩ := body3E_ok_inv data r hbody
    constructor
    · intro j hres
      unfold reservedOff at hres
      rw [if_pos rfl] at hres
      rcases hres with rfl | rfl | ⟨hj1, hj2⟩ | ⟨hj1, hj2⟩ | ⟨hj1, hj2⟩
      · exact (checkZeroAt_ok_inv data 0x20 hc20).2
      · exact (checkZeroAt_ok_inv data 0x21 hc21).2
      · exact ((checkZeroRange_ok_iff data 0x6E 0x74).mp hr1 j hj1 hj2).2
      · exact ((checkZeroRange_ok_iff data 0x87 0x8B).mp hr2 j hj1 hj2).2
      · exact (checkZeroFrom_ok_iff data 0xAD).mp hzf j hj1 hj2
    · intro hres hb
      unfold reservedOff at hres
      rw [if_pos rfl] at hres
      unfold getBlock
      rw [if_pos rfl]
      unfold decode3E
      rw [mkBase_eq (data.set i b).length (data.set i b) rfl, ok_bind,
          body3E_flip data i b hb r hbody hres, map_error]
  by_cases h45 : t = 0x45
  · subst h45
    unfold getBlock at hok
    rw [if_neg (by decide), if_neg (by decide), if_pos rfl] at hok
    unfold decode45 at hok
    obtain ⟨hlen, bed, hbody, -⟩ := base_decode_ok data.length data (body45 data) _ blk hok
    have hdata := (body45_ok_iff data bed).mp hbody
    constructor
    · intro j hres
      unfold reservedOff at hres
      rw [if_neg (by decide), if_pos rfl] at hres
      subst hdata
      rcases hres with rfl | rfl
      · rfl
      · rfl
    · intro hres hb
      unfold reservedOff at hres
      rw [if_neg (by decide), if_pos rfl] at hres
      subst hdata
      unfold getBlock
      rw [if_neg (by decide), if_neg (by decide), if_pos rfl]
      exact decode45_flip bed i b hres hb
  by_cases h46 : t = 0x46
  · subst h46
    unfold getBlock at hok
    rw [if_neg (by decide), if_neg (by decide), if_neg (by decide), if_pos rfl] at hok
    unfold decode46 at hok
    obtain ⟨hlen, p, hbody, -⟩ := base_decode_ok data.length data (body46 data) _ blk hok
    obtain ⟨hl4, h0, h1, h3, -, hdisj⟩ := body46_ok_inv data p hbody
    constructor
    · intro j hres
      unfold reservedOff at hres
      rw [if_neg (by decide), if_neg (by decide), if_pos rfl] at hres
      rcases hres with rfl | rfl | rfl | hlead
      · exact h0
      · exact h1
      · exact h3
      rcases hlead with ⟨hl, hj1, hj2⟩ | ⟨hl, hj1, hj2⟩ | ⟨hl, hj1, hj2⟩ | ⟨hl, hj1, hj2⟩
      · rcases hdisj with ⟨-, r, hld⟩ | ⟨hx, -⟩ | ⟨hx, -⟩ | ⟨hx, -⟩ | ⟨hx, -, -, -⟩
        · exact (checkZeroFrom_ok_iff data 0x3D3).mp
            (decodeLead14_ok_inv data r hld).2.2.2.1 j hj1 hj2
        all_goals exact absurd hl (by omega)
      · rcases hdisj with ⟨hx, -⟩ | ⟨-, r, hld⟩ | ⟨hx, -⟩ | ⟨hx, -⟩ | ⟨-, hx, -, -⟩
        · exact absurd hl (by omega)
        · exact (checkZeroFrom_ok_iff data 0x114).mp
            (decodeLead15_ok_inv data r hld).2.2.2.2.1 j hj1 hj2
        all_goals exact absurd hl (by omega)
      · rcases hdisj with ⟨hx, -⟩ | ⟨hx, -⟩ | ⟨-, r, hld⟩ | ⟨hx, -⟩ | ⟨-, -, hx, -⟩
        · exact absurd hl (by omega)
        · exact absurd hl (by omega)
        · exact (checkZeroFrom_ok_iff data 0x23).mp
            (decodeLead16_ok_inv data r hld).2.2 j hj1 hj2
        all_goals exact absurd hl (by omega)
      · rcases hdisj with ⟨hx, -⟩ | ⟨hx, -⟩ | ⟨hx, -⟩ | ⟨-, r, hld⟩ | ⟨-, -, -, hx⟩
        · exact absurd hl (by omega)
        · exact absurd hl (by omega)
        · exact absurd hl (by omega)
        · exact (checkZeroFrom_ok_iff data 0x2E).mp
            (decodeLead17_ok_inv data r hld).2 j hj1 hj2
        · exact absurd hl (by omega)
    · intro hres hb
      unfold reservedOff at hres
      rw [if_neg (by decide), if_neg (by decide), if_pos rfl] at hres
      unfold getBlock
      rw [if_neg (by decide), if_neg (by decide), if_neg (by decide), if_pos rfl]
      unfold decode46
      rw [mkBase_eq (data.set i b).length (data.set i b) rfl, ok_bind]
      have hbody' : body46 (data.set i b) = .error (.reservedNonZero i) := by
        rcases hres with rfl | rfl | rfl | hlead
        · exact body46_flip_header data 0 b hl4 h0 h1 (Or.inl rfl) hb
        · exact body46_flip_header data 1 b hl4 h0 h1 (Or.inr (Or.inl rfl)) hb
        · exact body46_flip_header data 3 b hl4 h0 h1 (Or.inr (Or.inr rfl)) hb
        rcases hlead with ⟨hl, hi1, hi2⟩ | ⟨hl, hi1, hi2⟩ | ⟨hl, hi1, hi2⟩ |
          ⟨hl, hi1, hi2⟩
        · obtain ⟨r, hld⟩ : ∃ r, decodeLead14 data = .ok r := by
            rcases hdisj with ⟨-, hr⟩ | ⟨hx, -⟩ | ⟨hx, -⟩ | ⟨hx, -⟩ | ⟨hx, -, -, -⟩
            · exact hr
            all_goals exact absurd hl (by omega)
          simp only [body46, needLen_set, needLen_ok data 4 hl4, ok_bind,
            getD_set_ne data i b 0 (by omega), getD_set_ne data i b 1 (by omega),
            getD_set_ne data i b 2 (by omega), getD_set_ne data i b 3 (by omega),
            h0, h1, h3, checkZeroByte_zero]
          rw [if_pos hl, decodeLead14_flip data i b hi1 hi2 hb r hld, map_error]
        · obtain ⟨r, hld⟩ : ∃ r, decodeLead15 data = .ok r := by
            rcases hdisj with ⟨hx, -⟩ | ⟨-, hr⟩ | ⟨hx, -⟩ | ⟨hx, -⟩ | ⟨-, hx, -, -⟩
            · exact absurd hl (by omega)
            · exact hr
            all_goals exact absurd hl (by omega)
          simp only [body46, needLen_set, needLen_ok data 4 hl4, ok_bind,
            getD_set_ne data i b 0 (by omega), getD_set_ne data i b 1 (by omega),
            getD_set_ne data i b 2 (by omega), getD_set_ne data i b 3 (by omega),
            h0, h1, h3, checkZeroByte_zero]
          rw [if_neg (by omega), if_pos hl,
              decodeLead15_flip data i b hi1 hi2 hb r hld, map_error]
        · obtain ⟨r, hld⟩ : ∃ r, decodeLead16 data = .ok r := by
            rcases hdisj with ⟨hx, -⟩ | ⟨hx, -⟩ | ⟨-, hr⟩ | ⟨hx, -⟩ | ⟨-, -, hx, -⟩
            · exact absurd hl (by omega)
            · exact absurd hl (by omega)
            · exact hr
            all_goals exact absurd hl (by omega)
          simp only [body46, needLen_set, needLen_ok data 4 hl4, ok_bind,
            getD_set_ne data i b 0 (by omega), getD_set_ne data i b 1 (by omega),
            getD_set_ne data i b 2 (by omega), getD_set_ne data i b 3 (by omega),
            h0, h1, h3, checkZeroByte_zero]
          rw [if_neg (by omega), if_neg (by omega), if_pos hl,
              decodeLead16_flip data i b hi1 hi2 hb r hld, map_error]
        · obtain ⟨r, hld⟩ : ∃ r, decodeLead17 data = .ok r := by
            rcases hdisj with ⟨hx, -⟩ | ⟨hx, -⟩ | ⟨hx, -⟩ | ⟨-, hr⟩ | ⟨-, -, -, hx⟩
            · exact absurd hl (by omega)
            · exact absurd hl (by omega)
            · exact absurd hl (by omega)
            · exact hr
            · exact absurd hl (by omega)
          simp only [body46, needLen_set, needLen_ok data 4 hl4, ok_bind,
            getD_set_ne data i b 0 (by omega), getD_set_ne data i b 1 (by omega),
            getD_set_ne data i b 2 (by omega), getD_set_ne data i b 3 (by omega),
            h0, h1, h3, checkZeroByte_zero]
          rw [if_neg (by omega), if_neg (by omega), if_neg (by omega), if_pos hl,
              decodeLead17_flip data i b hi1 hi2 hb r hld, map_error]
      rw [hbody', map_error]
  constructor
  · intro j hres
    unfold reservedOff at hres
    rw [if_neg h3E, if_neg h45, if_neg h46] at hres
    exact hres.elim
  · intro hres hb
    unfold reservedOff at hres
    rw [if_neg h3E, if_neg h45, if_neg h46] at hres
    exact hres.elim

set_option maxRecDepth 8000 in
/-- Witness for C3, realizing scenario 6: the decodable payload good3E with
byte 0x20 raised to 9 fails with reservedNonZero at offset 0x20. -/
theorem reserved_zero_law_witness :
    getBlock (good3E.set 0x20 9).length 0x3E (good3E.set 0x20 9) =
      .error (.reservedNonZero 0x20) := by
  have hok : getBlock good3E.length 0x3E good3E =
      .ok (.b3E 0xAD good3E good3Erec) := by
    rw [show good3E.length = 0xAD from by decide]
    unfold getBlock
    rw [if_pos rfl]
    exact good3E_decodes
  exact ((reserved_zero_law 0x3E good3E 0x20 9
      (.b3E 0xAD good3E good3Erec)).2.2 hok).2
    (by unfold reservedOff; rw [if_pos rfl]; exact Or.inl rfl) (by decide)
